import Mathlib

/-!
# mcpelauncher-client: bootstrap sequence and guest object model

A shallow embedding of `src/main.cpp` (the function `main`) and of
`src/jni/main_activity.h` (the classes `Context`, `HardwareInfo`, `MainActivity`).

Conventions of the embedding.

* Raw pointers (`void*`, `TextInputHandler*`) are addresses, `Nat`, with `nullptr = 0`.
* `std::shared_ptr<T>` is `Option T`; `none` is the null reference.
* `std::string` is `String`; `a + b` is `a ++ b`.
* `std::unordered_map<std::string, void*>` is an association list read by its first
  binding of a key; `insert` keeps an existing binding, as the C++ container does.
* `main` is run against an environment `Env` that fixes what every external collaborator
  answers (the parsed command line, whether a file is found, what a load returns, whether
  a call inside a `try` block throws).  Calls that `main` makes outside a `try` block are
  taken to return.  The run is recorded as the list of calls made, in program order.
-/

namespace McpeLauncher

/-! ## Pointers and symbol tables -/

/-- Raw pointer: an address. -/
abbrev Ptr := Nat

/-- The null pointer. -/
def nullptr : Ptr := 0

/-- Table `std::unordered_map<std::string, void*>`: read by the first binding of a key. -/
abbrev SymTable := List (String × Ptr)

/-- Lookup `m.find(name)`: the pointer bound to `name`, if any. -/
def SymTable.find : SymTable → String → Option Ptr
  | [], _ => none
  | (k, v) :: rest, name => if k = name then some v else SymTable.find rest name

/-- Insertion `m.insert({name, p})`: does nothing when `name` is already bound. -/
def SymTable.insert (m : SymTable) (name : String) (p : Ptr) : SymTable :=
  match SymTable.find m name with
  | some _ => m
  | none => m ++ [(name, p)]

/-- The loop `for(auto s = android_symbols; *s; s++) android_syms.insert({*s, stub})` of
`main`: walks the array up to its first null entry and inserts the stub under each name. -/
def stubMissingSymbols (stub : Ptr) : List (Option String) → SymTable → SymTable
  | [], m => m
  | none :: _, m => m
  | some s :: rest, m => stubMissingSymbols stub rest (SymTable.insert m s stub)

/-- The names of a null-terminated array: the entries before the first null. -/
def namesOf : List (Option String) → List String
  | [] => []
  | none :: _ => []
  | some s :: rest => s :: namesOf rest

/-- Lines 154-160 of `main`: the table starts empty, the four `initHybrisHooks` fill it
(asset manager, input queue, looper, window, in this order), then the missing symbols are
stubbed. -/
def android_syms (assetManagerHooks inputQueueHooks looperHooks windowHooks : SymTable → SymTable)
    (stub : Ptr) (android_symbols : List (Option String)) : SymTable :=
  let m0 : SymTable := []
  let m1 := assetManagerHooks m0
  let m2 := inputQueueHooks m1
  let m3 := looperHooks m2
  let m4 := windowHooks m3
  stubMissingSymbols stub android_symbols m4

/-! ## The redirection table -/

/-- The guard `argc >= 1 && argv != nullptr && argv[0] != nullptr && argv[0][0] != 0` of
line 98, yielding the string `argv[0]` when it holds. -/
def invokingProgram (argc : Int) (argv : Option (List (Option String))) : Option String :=
  if argc ≥ 1 then
    match argv with
    | none => none
    | some v =>
      match v.head? with
      | some (some a0) => if a0.data.head? ≠ none then some a0 else none
      | _ => none
  else none

/-- Lines 93-103 of `main`: the value of `shim::from_android_data_dir`. -/
def from_android_data_dir (getParentDir : String → String) (appDir : String) (pid : Int)
    (argc : Int) (argv : Option (List (Option String))) : List String :=
  let t0 : List String :=
    ["/data/data/com.mojang.minecraftpe",
     "/data/data" ++ getParentDir appDir ++ "/proc/" ++ toString pid ++ "/cmdline"]
  let t1 : List String :=
    match invokingProgram argc argv with
    | some a0 =>
      t0 ++ [if a0.data.head? = some '/' then "/data/data" ++ a0 else "/data/data/" ++ a0]
    | none => t0
  t1 ++ ["/data/data"]

/-- Line 104 of `main`: the value of `shim::to_android_data_dir`. -/
def to_android_data_dir (primaryDataDirectory : String) : String := primaryDataDirectory

/-! ## The run of `main` -/

/-- Enumeration `GraphicsApi` (game_window_manager.h): the two rendering symbol sets. -/
inductive GraphicsApi
  | OPENGL
  | OPENGL_ES2
  deriving DecidableEq, Repr

/-- Global `LauncherOptions options` (main.h). -/
structure LauncherOptions where
  windowWidth : Int
  windowHeight : Int
  graphicsApi : GraphicsApi
  deriving DecidableEq, Repr

/-- Severity of a `Log::` call. -/
inductive LogLevel
  | trace
  | debug
  | info
  | warn
  | error
  deriving DecidableEq, Repr

/-- Preprocessor configuration under which `main.cpp` is compiled. -/
structure BuildConfig where
  /-- Macro `__i386__` is defined. -/
  i386 : Bool
  /-- Macro `__x86_64__` is defined. -/
  x86_64 : Bool
  /-- Macro `USE_ARMHF_SUPPORT` is defined. -/
  armhf : Bool
  deriving DecidableEq, Repr

/-- What the collaborators of `main` answer during one run. -/
structure Env where
  /-- Value of the global `options` when `main` starts. -/
  options0 : LauncherOptions
  argc : Int
  argv : Option (List (Option String))
  /-- Result of `p.parse(argc, argv)`. -/
  parseOk : Bool
  printVersion : Bool
  gameDir : String
  dataDir : String
  cacheDir : String
  windowWidth : Int
  windowHeight : Int
  disableFmod : Bool
  forceEgl : Bool
  texturePatch : Bool
  /-- Result of `getpid()`. -/
  pid : Int
  getParentDir : String → String
  /-- Result of `PathHelper::getAppDir()`. -/
  appDir : String
  /-- Result of `PathHelper::getPrimaryDataDirectory()`. -/
  primaryDataDirectory : String
  /-- Result of `MinecraftUtils::getLibCSymbols()` after `ThreadMover::hookLibC`. -/
  libC : SymTable
  /-- Result of `MinecraftUtils::getLibraryAbi()`. -/
  libraryAbi : String
  /-- Result of `PathHelper::getAbiDir()`. -/
  abiDir : String
  /-- Whether `PathHelper::findGameFile("lib/<abi>/libminecraftpe.so")` returns (it throws
  otherwise). -/
  gameFileFound : Bool
  /-- Whether `MinecraftUtils::loadFMod()` throws. -/
  loadFModThrows : Bool
  assetManagerHooks : SymTable → SymTable
  inputQueueHooks : SymTable → SymTable
  looperHooks : SymTable → SymTable
  windowHooks : SymTable → SymTable
  /-- The null-terminated array `android_symbols` (android_symbols.h). -/
  android_symbols : List (Option String)
  /-- Address of the lambda `[]() { Log::warn("Main", "Android stub called"); }`. -/
  stub : Ptr
  /-- Result of the first call of `MinecraftUtils::loadMinecraftLib`. -/
  loadMinecraftLib1 : Ptr
  /-- Result of the second call of `MinecraftUtils::loadMinecraftLib`. -/
  loadMinecraftLib2 : Ptr
  /-- Result of `linker::dlopen("libGLESv2.so", 0)`. -/
  libGLESv2 : Ptr
  /-- Whether `linker::dlsym(handle, "bgfx_init")` is non-null. -/
  has_bgfx_init : Bool
  /-- Whether `GLCorePatch::install(handle)` throws. -/
  glCorePatchThrows : Bool

/-- A call of `main` that the record keeps without arguments. -/
inductive Call
  | GameWindowManager_getManager
  | CrashHandler_registerCrashHandler
  | MinecraftUtils_workaroundLocaleBug
  | GLCorePatch_mustUseDesktopGL
  | printVersionInfo
  | CpuId_query
  | linker_init
  | MinecraftUtils_getLibCSymbols
  | ThreadMover_hookLibC
  | MinecraftUtils_loadLibM
  | MinecraftUtils_setupHybris
  | linker_update_LD_LIBRARY_PATH
  | FakeEGL_setProcAddrFunction
  | FakeEGL_installLibrary
  | FakeLooper_initWindow
  | MinecraftUtils_setupGLES2Symbols
  | FakeAssetManager_initHybrisHooks
  | FakeInputQueue_initHybrisHooks
  | FakeLooper_initHybrisHooks
  | FakeWindow_initHybrisHooks
  | MinecraftVersion_getString
  | clear_Keyboard_pointers
  | JniSupport_construct
  | FakeLooper_setJniSupport
  | JniSupport_registerMinecraftNatives
  | startThread_detach
  | ThreadMover_executeMainThread
  | XboxLiveHelper_shutdown
  deriving DecidableEq, Repr

/-- A call made by the thread that `main` spawns (the lambda of lines 225-230). -/
inductive ThreadCall
  | linker_dlsym (handle : Ptr) (symbol : String)
  | JniSupport_startGame
  | linker_dlclose (handle : Ptr)
  deriving DecidableEq, Repr

/-- The file a `linker::dlopen` or `linker::dlopen_ext` call names. -/
inductive LibFile
  /-- A bare library name. -/
  | named (name : String)
  /-- The path `PathHelper::findDataFile(relative)` resolves to. -/
  | dataFile (relative : String)
  deriving DecidableEq, Repr

set_option maxHeartbeats 1000000 in
/-- One call made, or one global written, by `main`.  Queries without effect
(`getpid`, the `PathHelper` getters, `getLibraryBase`) are not recorded. -/
inductive Step
  | call (f : Call)
  | arg_parser_parse (ok : Bool)
  | set_windowWidth (w : Int)
  | set_windowHeight (h : Int)
  | set_graphicsApi (api : GraphicsApi)
  | set_enableTexturePatch (b : Bool)
  | PathHelper_setGameDir (dir : String)
  | PathHelper_setDataDir (dir : String)
  | PathHelper_setCacheDir (dir : String)
  | Log (level : LogLevel) (tag : String)
  | set_from_android_data_dir (table : List String)
  | set_to_android_data_dir (dir : String)
  | linker_load_library (name : String) (symbols : SymTable)
  | linker_dlopen_ext (file : LibFile) (hooks : SymTable)
  | linker_dlopen (file : LibFile)
  | linker_dlclose (handle : Ptr)
  | linker_dlsym (handle : Ptr) (symbol : String)
  | PathHelper_findGameFile (path : String) (found : Bool)
  | MinecraftUtils_loadFMod (threw : Bool)
  | ModLoader_loadModsFromDirectory (dir : String) (preinit : Bool)
  | MinecraftUtils_loadMinecraftLib (result : Ptr)
  | SymbolsHelper_initSymbols (handle : Ptr)
  | CorePatches_install (handle : Ptr)
  | TexelAAPatch_install (handle : Ptr)
  | HbuiPatch_install (handle : Ptr)
  | SplitscreenPatch_install (handle : Ptr)
  | ShaderErrorPatch_install (handle : Ptr)
  | GLCorePatch_install (handle : Ptr) (threw : Bool)
  | startThread_spawn (body : List ThreadCall)
  | JniSupport_setLooperRunning (running : Bool)
  | process_Exit (code : Int)
  deriving DecidableEq, Repr

/-- The outcome of one run of `main`. -/
structure Run where
  /-- Value returned by `main`, or handed to `_Exit`. -/
  status : Int
  /-- The calls made, in program order. -/
  trace : List Step
  /-- The global `options` when the run ends. -/
  options : LauncherOptions
  /-- The global `shim::from_android_data_dir` when the run ends. -/
  from_android_data_dir : List String
  /-- The global `shim::to_android_data_dir` when the run ends. -/
  to_android_data_dir : String
  deriving DecidableEq, Repr

/-- Lines 45-60: collaborators set up, arguments declared and parsed. -/
def parseArguments (e : Env) : List Step :=
  [Step.call Call.GameWindowManager_getManager,
   Step.call Call.CrashHandler_registerCrashHandler,
   Step.call Call.MinecraftUtils_workaroundLocaleBug,
   Step.call Call.GLCorePatch_mustUseDesktopGL,
   Step.arg_parser_parse e.parseOk]

/-- Value given to `options.graphicsApi` by line 68. -/
def preferredApi (e : Env) : GraphicsApi :=
  if e.forceEgl then GraphicsApi.OPENGL_ES2 else GraphicsApi.OPENGL

/-- Lines 66-89: options and directories taken from the command line, version and CPU
logged, linker initialised. -/
def applyOptions (cfg : BuildConfig) (e : Env) : List Step :=
  [Step.set_windowWidth e.windowWidth,
   Step.set_windowHeight e.windowHeight,
   Step.set_graphicsApi (preferredApi e),
   Step.set_enableTexturePatch e.texturePatch]
  ++ (if e.gameDir.data ≠ [] then [Step.PathHelper_setGameDir e.gameDir] else [])
  ++ (if e.dataDir.data ≠ [] then [Step.PathHelper_setDataDir e.dataDir] else [])
  ++ (if e.cacheDir.data ≠ [] then [Step.PathHelper_setCacheDir e.cacheDir] else [])
  ++ [Step.Log LogLevel.info "Launcher"]
  ++ (if cfg.i386 || cfg.x86_64 then
        [Step.call Call.CpuId_query, Step.Log LogLevel.info "Launcher", Step.Log LogLevel.info "Launcher"]
      else [])
  ++ [Step.Log LogLevel.trace "Launcher", Step.call Call.linker_init]

/-- The table built by `main` for the run `e`. -/
def Env.redirections (e : Env) : List String :=
  from_android_data_dir e.getParentDir e.appDir e.pid e.argc e.argv

/-- Lines 92-107: the redirection table is stored, and each entry logged. -/
def installRedirections (e : Env) : List Step :=
  [Step.set_from_android_data_dir e.redirections,
   Step.set_to_android_data_dir (to_android_data_dir e.primaryDataDirectory)]
  ++ e.redirections.map (fun _ => Step.Log LogLevel.trace "REDIRECT")

/-- Lines 108-127: the C runtime and the math runtime, then the remaining hybris set-up. -/
def loadRuntime (cfg : BuildConfig) (e : Env) : List Step :=
  [Step.call Call.MinecraftUtils_getLibCSymbols, Step.call Call.ThreadMover_hookLibC]
  ++ (if cfg.armhf then
        [Step.linker_load_library "ld-android.so" [],
         Step.linker_dlopen_ext (LibFile.dataFile ("lib/" ++ e.abiDir ++ "/libc.so")) e.libC,
         Step.linker_dlopen (LibFile.dataFile ("lib/" ++ e.abiDir ++ "/libm.so"))]
      else
        [Step.linker_load_library "libc.so" e.libC,
         Step.call Call.MinecraftUtils_loadLibM])
  ++ [Step.call Call.MinecraftUtils_setupHybris]

/-- Path looked up by line 129. -/
def guestBinaryPath (e : Env) : String := "lib/" ++ e.libraryAbi ++ "/libminecraftpe.so"

/-- Lines 128-133: the guest binary is looked up; a miss is logged (and ends the run). -/
def findGuestBinary (e : Env) : List Step :=
  if e.gameFileFound then [Step.PathHelper_findGameFile (guestBinaryPath e) true]
  else [Step.PathHelper_findGameFile (guestBinaryPath e) false,
        Step.Log LogLevel.error "LAUNCHER"]

/-- Lines 135-141: the audio backend is loaded unless disabled; a throw of `loadFMod` is
caught and logged as a warning. -/
def audioStep (e : Env) : List Step :=
  if !e.disableFmod then
    (if e.loadFModThrows then
       [Step.MinecraftUtils_loadFMod true, Step.Log LogLevel.warn "FMOD"]
     else [Step.MinecraftUtils_loadFMod false])
  else []

/-- Lines 134-141: the library path is updated, then the audio step. -/
def loadAudio (e : Env) : List Step :=
  [Step.PathHelper_findGameFile ("lib/" ++ e.libraryAbi) true,
   Step.call Call.linker_update_LD_LIBRARY_PATH]
  ++ audioStep e

/-- Lines 142-152: the fake EGL library, then the rendering library the guest binary
declares: the GLES2 symbol source, or an empty stub for the desktop-GL path. -/
def loadRendering (api : GraphicsApi) : List Step :=
  [Step.call Call.FakeEGL_setProcAddrFunction, Step.call Call.FakeEGL_installLibrary]
  ++ (if api = GraphicsApi.OPENGL_ES2 then
        [Step.call Call.FakeLooper_initWindow, Step.call Call.MinecraftUtils_setupGLES2Symbols]
      else [Step.linker_load_library "libGLESv2.so" []])

/-- The table after the four `initHybrisHooks` calls of the run `e`: the host-implemented
entries. -/
def Env.hooked (e : Env) : SymTable :=
  e.windowHooks (e.looperHooks (e.inputQueueHooks (e.assetManagerHooks [])))

/-- The table handed to `linker::load_library("libandroid.so", ...)` in the run `e`. -/
def Env.android_syms (e : Env) : SymTable :=
  McpeLauncher.android_syms e.assetManagerHooks e.inputQueueHooks e.looperHooks e.windowHooks
    e.stub e.android_symbols

/-- Lines 154-163: `libandroid.so` from the hooks and the stubs, then the mods that are
loaded before the game. -/
def loadAndroid (e : Env) : List Step :=
  [Step.call Call.FakeAssetManager_initHybrisHooks,
   Step.call Call.FakeInputQueue_initHybrisHooks,
   Step.call Call.FakeLooper_initHybrisHooks,
   Step.call Call.FakeWindow_initHybrisHooks,
   Step.linker_load_library "libandroid.so" e.android_syms,
   Step.ModLoader_loadModsFromDirectory (e.primaryDataDirectory ++ "mods/") true]

/-- Lines 165-179: the guest binary is loaded; when that yields no handle under desktop
GL, the mode becomes GLES2, the stub is closed, the GLES2 symbols are installed and the
load is tried again.  Returns the handle, the mode and the calls made. -/
def loadGuest (e : Env) (api : GraphicsApi) : Ptr × GraphicsApi × List Step :=
  let handle := e.loadMinecraftLib1
  let t := [Step.Log LogLevel.trace "Launcher", Step.MinecraftUtils_loadMinecraftLib handle]
  if handle = nullptr ∧ api = GraphicsApi.OPENGL then
    let handle2 := e.loadMinecraftLib2
    (handle2, GraphicsApi.OPENGL_ES2,
      t ++ [Step.set_graphicsApi GraphicsApi.OPENGL_ES2,
            Step.linker_dlopen (LibFile.named "libGLESv2.so"),
            Step.linker_dlclose e.libGLESv2,
            Step.call Call.FakeLooper_initWindow,
            Step.call Call.MinecraftUtils_setupGLES2Symbols,
            Step.MinecraftUtils_loadMinecraftLib handle2])
  else (handle, api, t)

/-- Lines 184-209: mods, the patches that do not depend on the mode, and the renderdragon
probe. -/
def installPatches (cfg : BuildConfig) (e : Env) (handle : Ptr) : List Step :=
  [Step.Log LogLevel.info "Launcher",
   Step.Log LogLevel.debug "Launcher",
   Step.ModLoader_loadModsFromDirectory (e.primaryDataDirectory ++ "mods/") false,
   Step.call Call.MinecraftVersion_getString,
   Step.Log LogLevel.info "Launcher",
   Step.Log LogLevel.info "Launcher",
   Step.SymbolsHelper_initSymbols handle,
   Step.CorePatches_install handle]
  ++ (if cfg.i386 then
        [Step.TexelAAPatch_install handle,
         Step.HbuiPatch_install handle,
         Step.SplitscreenPatch_install handle,
         Step.ShaderErrorPatch_install handle]
      else [])
  ++ [Step.linker_dlsym handle "bgfx_init"]
  ++ (if e.has_bgfx_init then [Step.call Call.clear_Keyboard_pointers] else [])

/-- Lines 184-217: the patches, then the desktop-GL patch when the mode is `OPENGL`; its
throw is caught, logged, and turns the mode to `OPENGL_ES2`.  Returns the mode and the
calls made. -/
def applyPatches (cfg : BuildConfig) (e : Env) (handle : Ptr) (api : GraphicsApi) :
    GraphicsApi × List Step :=
  let t := installPatches cfg e handle
  if api = GraphicsApi.OPENGL then
    if e.glCorePatchThrows then
      (GraphicsApi.OPENGL_ES2,
        t ++ [Step.GLCorePatch_install handle true,
              Step.Log LogLevel.error "GLCOREPATCH",
              Step.set_graphicsApi GraphicsApi.OPENGL_ES2])
    else (api, t ++ [Step.GLCorePatch_install handle false])
  else (api, t)

/-- Lines 225-230: what the spawned thread runs: the game is started with three symbols
of the guest binary, then the guest binary is closed. -/
def startThreadBody (handle : Ptr) : List ThreadCall :=
  [ThreadCall.linker_dlsym handle "ANativeActivity_onCreate",
   ThreadCall.linker_dlsym handle "stbi_load_from_memory",
   ThreadCall.linker_dlsym handle "stbi_image_free",
   ThreadCall.JniSupport_startGame,
   ThreadCall.linker_dlclose handle]

/-- Lines 219-240: JNI set up, the game thread spawned and detached, the main thread run
until the window closes, then the process is ended with status 0. -/
def runGame (handle : Ptr) : List Step :=
  [Step.Log LogLevel.info "Launcher",
   Step.call Call.JniSupport_construct,
   Step.call Call.FakeLooper_setJniSupport,
   Step.call Call.JniSupport_registerMinecraftNatives,
   Step.startThread_spawn (startThreadBody handle),
   Step.call Call.startThread_detach,
   Step.Log LogLevel.info "Launcher",
   Step.call Call.ThreadMover_executeMainThread,
   Step.JniSupport_setLooperRunning false,
   Step.call Call.XboxLiveHelper_shutdown,
   Step.process_Exit 0]

/-- The calls of lines 66-127, made by every run that gets past the command line. -/
def bootSteps (cfg : BuildConfig) (e : Env) : List Step :=
  applyOptions cfg e ++ installRedirections e ++ loadRuntime cfg e

/-- The calls of lines 134-163, made by every run that finds the guest binary. -/
def supportSteps (e : Env) : List Step :=
  loadAudio e ++ loadRendering (preferredApi e) ++ loadAndroid e

/-- The function `main` of `main.cpp`, run under the configuration `cfg` against `e`. -/
def main (cfg : BuildConfig) (e : Env) : Run :=
  let t0 := parseArguments e
  if !e.parseOk then
    { status := 1, trace := t0, options := e.options0,
      from_android_data_dir := [], to_android_data_dir := "" }
  else if e.printVersion then
    { status := 0, trace := t0 ++ [Step.call Call.printVersionInfo], options := e.options0,
      from_android_data_dir := [], to_android_data_dir := "" }
  else
    let opts : LauncherOptions :=
      { windowWidth := e.windowWidth, windowHeight := e.windowHeight,
        graphicsApi := preferredApi e }
    let t1 := t0 ++ bootSteps cfg e ++ findGuestBinary e
    if !e.gameFileFound then
      { status := 1, trace := t1, options := opts,
        from_android_data_dir := e.redirections,
        to_android_data_dir := to_android_data_dir e.primaryDataDirectory }
    else
      let loaded := loadGuest e opts.graphicsApi
      let handle := loaded.1
      let t2 := t1 ++ supportSteps e ++ loaded.2.2
      if handle = nullptr then
        { status := 51, trace := t2 ++ [Step.Log LogLevel.error "Launcher"],
          options := { opts with graphicsApi := loaded.2.1 },
          from_android_data_dir := e.redirections,
          to_android_data_dir := to_android_data_dir e.primaryDataDirectory }
      else
        let patched := applyPatches cfg e handle loaded.2.1
        { status := 0, trace := t2 ++ patched.2 ++ runGame handle,
          options := { opts with graphicsApi := patched.1 },
          from_android_data_dir := e.redirections,
          to_android_data_dir := to_android_data_dir e.primaryDataDirectory }

/-- What a run that finds the guest binary does after the audio step. -/
def afterAudio (cfg : BuildConfig) (e : Env) : List Step :=
  loadRendering (preferredApi e) ++ loadAndroid e ++ (loadGuest e (preferredApi e)).2.2
    ++ (if (loadGuest e (preferredApi e)).1 = nullptr then
          [Step.Log LogLevel.error "Launcher"]
        else
          (applyPatches cfg e (loadGuest e (preferredApi e)).1
            (loadGuest e (preferredApi e)).2.1).2 ++ runGame (loadGuest e (preferredApi e)).1)

/-- What a run that finds the guest binary does before the audio step. -/
def beforeAudio (cfg : BuildConfig) (e : Env) : List Step :=
  parseArguments e ++ bootSteps cfg e ++ findGuestBinary e
    ++ [Step.PathHelper_findGameFile ("lib/" ++ e.libraryAbi) true,
        Step.call Call.linker_update_LD_LIBRARY_PATH]

/-! ## Events of a run -/

/-- A call of `MinecraftUtils::loadMinecraftLib`. -/
def Step.isGuestLoad : Step → Bool
  | Step.MinecraftUtils_loadMinecraftLib _ => true
  | _ => false

/-- A call of `GLCorePatch::install`. -/
def Step.isGLCorePatch : Step → Bool
  | Step.GLCorePatch_install _ _ => true
  | _ => false

/-- A call of `MinecraftUtils::loadFMod`. -/
def Step.isLoadFMod : Step → Bool
  | Step.MinecraftUtils_loadFMod _ => true
  | _ => false

/-- A call of `Log::warn`. -/
def Step.isWarning : Step → Bool
  | Step.Log LogLevel.warn _ => true
  | _ => false

/-- A call that maps or installs a library: `linker::load_library`, `linker::dlopen`,
`linker::dlopen_ext`, `MinecraftUtils::setupGLES2Symbols`, `MinecraftUtils::loadMinecraftLib`. -/
def Step.isLibraryLoad : Step → Bool
  | Step.linker_load_library _ _ => true
  | Step.linker_dlopen _ => true
  | Step.linker_dlopen_ext _ _ => true
  | Step.call Call.MinecraftUtils_setupGLES2Symbols => true
  | Step.MinecraftUtils_loadMinecraftLib _ => true
  | _ => false

/-- The native libraries that the load order of the spec names. -/
inductive Library
  /-- The core C runtime, under the guest's name for it, with the host's symbols. -/
  | cRuntime
  /-- The math runtime. -/
  | mathRuntime
  /-- The rendering library the guest declares: `real` for the GLES2 symbol source,
  otherwise the empty stub. -/
  | rendering (real : Bool)
  /-- Library `libandroid.so`: the platform hooks and the stubbed remaining symbols. -/
  | platform (symbols : SymTable)
  /-- The guest binary. -/
  | guestBinary
  /-- The audio backend. -/
  | audioBackend
  deriving DecidableEq, Repr

/-- Which library of the spec's load order a call loads, if any.  The other libraries
that `main` brings in (`ld-android.so`, the hybris set, the fake EGL library, the mods)
are not in that list.  Under `USE_ARMHF_SUPPORT` the two runtimes are the data files that
`linker::dlopen_ext` and `linker::dlopen` open; `linker::dlopen("libGLESv2.so", 0)` only
fetches the handle of the stub to close it. -/
def Step.loads : Step → Option Library
  | Step.linker_load_library name symbols =>
    if name = "libc.so" then some Library.cRuntime
    else if name = "libGLESv2.so" then some (Library.rendering false)
    else if name = "libandroid.so" then some (Library.platform symbols)
    else none
  | Step.linker_dlopen_ext (LibFile.dataFile _) _ => some Library.cRuntime
  | Step.call Call.MinecraftUtils_loadLibM => some Library.mathRuntime
  | Step.linker_dlopen (LibFile.dataFile _) => some Library.mathRuntime
  | Step.call Call.MinecraftUtils_setupGLES2Symbols => some (Library.rendering true)
  | Step.MinecraftUtils_loadMinecraftLib _ => some Library.guestBinary
  | Step.MinecraftUtils_loadFMod _ => some Library.audioBackend
  | _ => none

/-- The libraries of the spec's load order, in the order the run loads them. -/
def loadOrder (t : List Step) : List Library := t.filterMap Step.loads

/-- The load order as the spec gives it, for a run without retry: C runtime, math
runtime, rendering library, platform library, guest binary, then the audio backend. -/
def specLoadOrder (real : Bool) (symbols : SymTable) (audio : Bool) : List Library :=
  [Library.cRuntime, Library.mathRuntime, Library.rendering real, Library.platform symbols,
   Library.guestBinary] ++ (if audio then [Library.audioBackend] else [])

/-! ## The path rewriting -/

/-- Whether `src` is a prefix of `path`. -/
def isPrefixOfPath (src path : String) : Bool := src.data.isPrefixOf path.data

/-- What is left of `path` after its prefix `src`. -/
def suffixAfter (src path : String) : String := ⟨path.data.drop src.length⟩

/-- Modelled from the spec: the rewriting that the libc shim applies to a guest path, whose
code is not among the sources.  "Matching is by prefix; the first matching entry wins; no
match means the path passes through verbatim", and a match yields `destination + suffix`. -/
def rewritePath (table : List String) (destination path : String) : String :=
  match table.find? (fun src => isPrefixOfPath src path) with
  | some src => destination ++ suffixAfter src path
  | none => path

/-! ## The guest object model (`jni/main_activity.h`) -/

/-- Class `FakeJni::JString`. -/
abbrev JString := String

/-- Class `File` (java_types.h), as built from a path. -/
structure File where
  path : String
  deriving DecidableEq, Repr

/-- Class `ClassLoader` (java_types.h). -/
structure ClassLoader where
  deriving DecidableEq, Repr

/-- Modelled from the spec: `ClassLoader::getInstance()`, defined outside the header, is
"a singleton class-loader reference". -/
def ClassLoader.getInstance : Option ClassLoader := some {}

/-- Class `HardwareInfo`: no fields. -/
structure HardwareInfo where
  deriving DecidableEq, Repr

/-- A call received by the `TextInputHandler` that `MainActivity::textInput` points to. -/
inductive TextInputCall
  | enable (text : String) (multiline : Bool)
  | disable
  | update (text : String)
  | getCursorPosition
  deriving DecidableEq, Repr

/-- Class `MainActivity`: its three fields. -/
structure MainActivity where
  storageDirectory : String
  /-- Pointer `TextInputHandler *textInput`, `nullptr` when none is attached. -/
  textInput : Ptr
  /-- Member `std::function<void ()> quitCallback`: empty, or the callable it holds. -/
  quitCallback : Option Nat
  deriving DecidableEq, Repr

/-- How a member function can fail to return. -/
inductive Fault
  /-- A null `std::shared_ptr` was dereferenced. -/
  | nullDereference
  deriving DecidableEq, Repr

/-- Outcome of a member function that calls the collaborator: the value returned, the
object afterwards and the calls made on the collaborator, or a fault. -/
abbrev Outcome (α : Type) := Except Fault (α × MainActivity × List TextInputCall)

/-- Member `Context::getClassLoader`. -/
def MainActivity.getClassLoader (_self : MainActivity) : Option ClassLoader :=
  ClassLoader.getInstance

/-- Member `Context::getApplicationContext`: the object itself. -/
def MainActivity.getApplicationContext (self : MainActivity) : Option MainActivity :=
  some self

/-- Static member `HardwareInfo::getAndroidVersion`. -/
def HardwareInfo.getAndroidVersion : Option JString := some "Linux"

/-- Member `MainActivity::getAndroidVersion`. -/
def MainActivity.getAndroidVersion (_self : MainActivity) : Int := 27

/-- Member `MainActivity::getLocale`. -/
def MainActivity.getLocale (_self : MainActivity) : Option JString := some "en"

/-- Member `MainActivity::getDeviceModel`. -/
def MainActivity.getDeviceModel (_self : MainActivity) : Option JString := some "Linux"

/-- Member `MainActivity::getFilesDir`. -/
def MainActivity.getFilesDir (self : MainActivity) : Option File :=
  some { path := self.storageDirectory }

/-- Member `MainActivity::getCacheDir`. -/
def MainActivity.getCacheDir (self : MainActivity) : Option File :=
  some { path := self.storageDirectory }

/-- Member `MainActivity::getExternalStoragePath`. -/
def MainActivity.getExternalStoragePath (self : MainActivity) : Option JString :=
  some self.storageDirectory

/-- Member `MainActivity::hasWriteExternalStoragePermission`. -/
def MainActivity.hasWriteExternalStoragePermission (_self : MainActivity) : Bool := true

/-- Member `MainActivity::getHardwareInfo`. -/
def MainActivity.getHardwareInfo (_self : MainActivity) : Option HardwareInfo := some {}

/-- Member `MainActivity::getFileDataBytes`: an empty byte array, whatever the path. -/
def MainActivity.getFileDataBytes (_self : MainActivity) (_path : Option JString) :
    Option (List Int) := some []

/-- Member `MainActivity::getIPAddresses`. -/
def MainActivity.getIPAddresses (_self : MainActivity) : Option (List JString) := some []

/-- Member `MainActivity::getBroadcastAddresses`. -/
def MainActivity.getBroadcastAddresses (_self : MainActivity) : Option (List JString) :=
  some []

/-- Member `MainActivity::showKeyboard`.  With a collaborator attached, `text` is
dereferenced (`text->asStdString()`). -/
def MainActivity.showKeyboard (self : MainActivity) (text : Option JString) (_maxLen : Int)
    (_ignored _ignored2 multiline : Bool) : Outcome Unit :=
  if self.textInput ≠ nullptr then
    match text with
    | none => Except.error Fault.nullDereference
    | some t => Except.ok ((), self, [TextInputCall.enable t multiline])
  else Except.ok ((), self, [])

/-- Member `MainActivity::hideKeyboard`. -/
def MainActivity.hideKeyboard (self : MainActivity) : Outcome Unit :=
  if self.textInput ≠ nullptr then Except.ok ((), self, [TextInputCall.disable])
  else Except.ok ((), self, [])

/-- Member `MainActivity::updateTextboxText`.  With a collaborator attached, `newText` is
dereferenced (`newText->asStdString()`). -/
def MainActivity.updateTextboxText (self : MainActivity) (newText : Option JString) :
    Outcome Unit :=
  if self.textInput ≠ nullptr then
    match newText with
    | none => Except.error Fault.nullDereference
    | some t => Except.ok ((), self, [TextInputCall.update t])
  else Except.ok ((), self, [])

/-- Member `MainActivity::getCursorPosition`; `cursor` is what the collaborator answers
to `getCursorPosition()`. -/
def MainActivity.getCursorPosition (self : MainActivity) (cursor : Int) : Outcome Int :=
  if self.textInput ≠ nullptr then Except.ok (cursor, self, [TextInputCall.getCursorPosition])
  else Except.ok (0, self, [])

/-! ## Sample inputs -/

/-- A 64-bit x86 build without armhf support. -/
def sampleConfig : BuildConfig := { i386 := false, x86_64 := true, armhf := false }

/-- A run started as `/opt/launcher/bin` with pid 4242, desktop GL preferred, audio
enabled, in which every load succeeds at once. -/
def sampleEnv : Env :=
  { options0 := { windowWidth := 0, windowHeight := 0, graphicsApi := GraphicsApi.OPENGL },
    argc := 1,
    argv := some [some "/opt/launcher/bin"],
    parseOk := true,
    printVersion := false,
    gameDir := "",
    dataDir := "",
    cacheDir := "",
    windowWidth := 720,
    windowHeight := 480,
    disableFmod := false,
    forceEgl := false,
    texturePatch := false,
    pid := 4242,
    getParentDir := fun _ => "/opt/launcher",
    appDir := "/opt/launcher/share",
    primaryDataDirectory := "/home/u/.local/share/mcpelauncher/",
    libC := [("malloc", 11), ("free", 12)],
    libraryAbi := "x86_64",
    abiDir := "x86_64",
    gameFileFound := true,
    loadFModThrows := false,
    assetManagerHooks := fun m => SymTable.insert m "AAssetManager_open" 21,
    inputQueueHooks := fun m => SymTable.insert m "AInputQueue_getEvent" 22,
    looperHooks := fun m => SymTable.insert m "ALooper_pollAll" 23,
    windowHooks := fun m => SymTable.insert m "ANativeWindow_getWidth" 24,
    android_symbols := [some "ALooper_pollAll", some "AConfiguration_new", none],
    stub := 99,
    loadMinecraftLib1 := 7000,
    loadMinecraftLib2 := 7001,
    libGLESv2 := 500,
    has_bgfx_init := false,
    glCorePatchThrows := false }

/-- A run in which the first load fails under desktop GL and the retry succeeds. -/
def retryEnv : Env := { sampleEnv with loadMinecraftLib1 := nullptr }

/-- A run in which the guest binary loads under desktop GL and `GLCorePatch::install`
throws. -/
def patchFailEnv : Env := { sampleEnv with glCorePatchThrows := true }

/-- A run in which the audio backend fails to load. -/
def audioFailEnv : Env := { sampleEnv with loadFModThrows := true }

/-- A run with `--disable-fmod`. -/
def audioOffEnv : Env := { sampleEnv with disableFmod := true, loadFModThrows := true }

/-- A run started as `com.mojang.minecraftpe`, a relative name: the entry derived from
`argv[0]` repeats the legacy path. -/
def tieEnv : Env := { sampleEnv with argv := some [some "com.mojang.minecraftpe"] }

/-- A guest path under the legacy directory. -/
def samplePath : String := "/data/data/com.mojang.minecraftpe/games"

/-- An activity with a text-input collaborator attached. -/
def sampleActivity : MainActivity :=
  { storageDirectory := "/home/u/.local/share/mcpelauncher/", textInput := 4096,
    quitCallback := some 1 }

/-- An activity without a text-input collaborator. -/
def bareActivity : MainActivity :=
  { storageDirectory := "/home/u/.local/share/mcpelauncher/", textInput := nullptr,
    quitCallback := none }

/-! ## Lemmas on symbol tables -/

theorem SymTable.find_append (a b : SymTable) (n : String) :
    SymTable.find (a ++ b) n = (SymTable.find a n).orElse (fun _ => SymTable.find b n) := by
  induction a with
  | nil => simp [SymTable.find]
  | cons kv rest ih =>
    obtain ⟨k, v⟩ := kv
    by_cases h : k = n
    · simp [SymTable.find, h]
    · simp [SymTable.find, h, ih]

theorem SymTable.find_insert (m : SymTable) (k : String) (p : Ptr) (n : String) :
    SymTable.find (SymTable.insert m k p) n =
      (SymTable.find m n).orElse (fun _ =>
        if k = n ∧ SymTable.find m k = none then some p else none) := by
  unfold SymTable.insert
  cases hk : SymTable.find m k with
  | some v =>
    cases hn : SymTable.find m n <;> simp
  | none =>
    rw [SymTable.find_append]
    cases hn : SymTable.find m n with
    | some w => simp
    | none =>
      by_cases h : k = n
      · simp [SymTable.find, h]
      · simp [SymTable.find, h]

theorem find_stubMissingSymbols (stub : Ptr) (syms : List (Option String)) (m : SymTable)
    (n : String) :
    SymTable.find (stubMissingSymbols stub syms m) n =
      (SymTable.find m n).orElse (fun _ => if n ∈ namesOf syms then some stub else none) := by
  induction syms generalizing m with
  | nil => cases h : SymTable.find m n <;> simp [stubMissingSymbols, namesOf, h]
  | cons s rest ih =>
    cases s with
    | none => cases h : SymTable.find m n <;> simp [stubMissingSymbols, namesOf, h]
    | some s =>
      simp only [stubMissingSymbols, namesOf, ih, SymTable.find_insert, List.mem_cons]
      cases hn : SymTable.find m n with
      | some w => simp
      | none =>
        by_cases hs : s = n
        · subst hs
          simp [hn]
        · have hs' : ¬ n = s := fun h => hs h.symm
          simp [hs, hs']

theorem find_of_mem_values (m : SymTable) (n : String) (p : Ptr)
    (h : SymTable.find m n = some p) : (n, p) ∈ m := by
  induction m with
  | nil => simp [SymTable.find] at h
  | cons kv rest ih =>
    obtain ⟨k, v⟩ := kv
    by_cases hk : k = n
    · simp [SymTable.find, hk] at h
      simp [hk, h]
    · simp [SymTable.find, hk] at h
      exact List.mem_cons_of_mem _ (ih h)

/-! ## Lemmas on the run of `main` -/

theorem filterMap_ite {α β : Type} (f : α → Option β) (c : Prop) [Decidable c]
    (a b : List α) :
    List.filterMap f (if c then a else b) =
      if c then List.filterMap f a else List.filterMap f b := by
  split <;> rfl

theorem countP_ite {α : Type} (p : α → Bool) (c : Prop) [Decidable c] (a b : List α) :
    List.countP p (if c then a else b) = if c then List.countP p a else List.countP p b := by
  split <;> rfl

/-- The handle that the load of the guest binary ends with. -/
theorem loadGuest_handle (e : Env) (api : GraphicsApi) :
    (loadGuest e api).1 =
      if e.loadMinecraftLib1 = nullptr ∧ api = GraphicsApi.OPENGL then e.loadMinecraftLib2
      else e.loadMinecraftLib1 := by
  by_cases h : e.loadMinecraftLib1 = nullptr ∧ api = GraphicsApi.OPENGL <;> simp [loadGuest, h]

/-- The mode that the load of the guest binary ends with. -/
theorem loadGuest_api (e : Env) (api : GraphicsApi) :
    (loadGuest e api).2.1 =
      if e.loadMinecraftLib1 = nullptr ∧ api = GraphicsApi.OPENGL then GraphicsApi.OPENGL_ES2
      else api := by
  by_cases h : e.loadMinecraftLib1 = nullptr ∧ api = GraphicsApi.OPENGL <;> simp [loadGuest, h]

/-- The record of a run that finds the guest binary. -/
theorem main_trace_of_found (cfg : BuildConfig) (e : Env) (h1 : e.parseOk = true)
    (h2 : e.printVersion = false) (h3 : e.gameFileFound = true) :
    (main cfg e).trace =
      parseArguments e ++ bootSteps cfg e ++ findGuestBinary e ++ supportSteps e
        ++ (loadGuest e (preferredApi e)).2.2
        ++ (if (loadGuest e (preferredApi e)).1 = nullptr then
              [Step.Log LogLevel.error "Launcher"]
            else
              (applyPatches cfg e (loadGuest e (preferredApi e)).1
                (loadGuest e (preferredApi e)).2.1).2 ++ runGame (loadGuest e (preferredApi e)).1) := by
  simp [main, h1, h2, h3]
  split <;> simp

/-- The load order of the calls made before the guest binary is looked up. -/
theorem loadOrder_boot (cfg : BuildConfig) (e : Env) :
    loadOrder (parseArguments e ++ bootSteps cfg e ++ findGuestBinary e) =
      [Library.cRuntime, Library.mathRuntime] := by
  simp only [loadOrder, parseArguments, bootSteps, applyOptions, installRedirections,
    loadRuntime, findGuestBinary, filterMap_ite, List.filterMap_append, List.filterMap_cons,
    List.filterMap_nil, List.filterMap_map, Step.loads, ite_self, List.nil_append,
    List.append_nil]
  by_cases ha : cfg.armhf = true <;> by_cases hg : e.gameFileFound = true <;>
    simp [Function.comp_def, Step.loads, ha, hg]

/-- The load order of the calls made between the look-up and the load of the guest. -/
theorem loadOrder_support (e : Env) :
    loadOrder (supportSteps e) =
      (if e.disableFmod then [] else [Library.audioBackend])
        ++ [Library.rendering e.forceEgl, Library.platform e.android_syms] := by
  by_cases hd : e.disableFmod = true <;> by_cases ht : e.loadFModThrows = true <;>
    by_cases hf : e.forceEgl = true <;>
    simp [loadOrder, supportSteps, loadAudio, audioStep, loadRendering, loadAndroid, preferredApi,
      Step.loads, hd, ht, hf]

/-- The load order of the load of the guest binary, retry included. -/
theorem loadOrder_loadGuest (e : Env) (api : GraphicsApi) :
    loadOrder (loadGuest e api).2.2 =
      Library.guestBinary ::
        (if e.loadMinecraftLib1 = nullptr ∧ api = GraphicsApi.OPENGL then
          [Library.rendering true, Library.guestBinary]
        else []) := by
  by_cases h : e.loadMinecraftLib1 = nullptr ∧ api = GraphicsApi.OPENGL <;>
    simp [loadGuest, h, loadOrder, Step.loads]

/-- Nothing after the load of the guest binary loads a library of the spec's order. -/
theorem loadOrder_applyPatches (cfg : BuildConfig) (e : Env) (handle : Ptr)
    (api : GraphicsApi) : loadOrder (applyPatches cfg e handle api).2 ++ loadOrder (runGame handle) = [] := by
  by_cases hi : cfg.i386 = true <;> by_cases hb : e.has_bgfx_init = true <;>
    by_cases hg : e.glCorePatchThrows = true <;> cases api <;>
    simp [applyPatches, installPatches, loadOrder, Step.loads, runGame, hi, hb, hg]

theorem loadOrder_append (a b : List Step) : loadOrder (a ++ b) = loadOrder a ++ loadOrder b := by
  simp [loadOrder]

theorem guestLoads_before (cfg : BuildConfig) (e : Env) :
    List.countP Step.isGuestLoad
      (parseArguments e ++ bootSteps cfg e ++ findGuestBinary e ++ supportSteps e) = 0 := by
  simp only [parseArguments, bootSteps, applyOptions, installRedirections, loadRuntime,
    findGuestBinary, supportSteps, loadAudio, audioStep, loadRendering, loadAndroid, countP_ite,
    List.countP_append, List.countP_cons, List.countP_nil, List.countP_map, Step.isGuestLoad,
    ite_self]
  simp [Function.comp_def, Step.isGuestLoad]

theorem guestLoads_after (cfg : BuildConfig) (e : Env) (handle : Ptr) (api : GraphicsApi) :
    List.countP Step.isGuestLoad ((applyPatches cfg e handle api).2 ++ runGame handle) = 0 := by
  by_cases hi : cfg.i386 = true <;> by_cases hb : e.has_bgfx_init = true <;>
    by_cases hg : e.glCorePatchThrows = true <;> cases api <;>
    simp [applyPatches, installPatches, Step.isGuestLoad, runGame, hi, hb, hg]

theorem glCorePatch_before (cfg : BuildConfig) (e : Env) (api : GraphicsApi) :
    List.countP Step.isGLCorePatch
      (parseArguments e ++ bootSteps cfg e ++ findGuestBinary e ++ supportSteps e
        ++ (loadGuest e api).2.2) = 0 := by
  simp only [parseArguments, bootSteps, applyOptions, installRedirections, loadRuntime,
    findGuestBinary, supportSteps, loadAudio, audioStep, loadRendering, loadAndroid, loadGuest, countP_ite,
    List.countP_append, List.countP_cons, List.countP_nil, List.countP_map, Step.isGLCorePatch,
    ite_self]
  by_cases h : e.loadMinecraftLib1 = nullptr ∧ api = GraphicsApi.OPENGL <;>
    simp [Function.comp_def, Step.isGLCorePatch, h]

theorem glCorePatch_after (cfg : BuildConfig) (e : Env) (handle : Ptr) (api : GraphicsApi) :
    List.countP Step.isGLCorePatch ((applyPatches cfg e handle api).2 ++ runGame handle) =
      if api = GraphicsApi.OPENGL then 1 else 0 := by
  by_cases hi : cfg.i386 = true <;> by_cases hb : e.has_bgfx_init = true <;>
    by_cases hg : e.glCorePatchThrows = true <;> cases api <;>
    simp [applyPatches, installPatches, Step.isGLCorePatch, runGame, hi, hb, hg]

/-- The mode after the patches: GLES2 exactly when it was so already, or the desktop-GL
patch threw. -/
theorem applyPatches_api (cfg : BuildConfig) (e : Env) (handle : Ptr) (api : GraphicsApi) :
    (applyPatches cfg e handle api).1 =
      if api = GraphicsApi.OPENGL ∧ e.glCorePatchThrows = true then GraphicsApi.OPENGL_ES2
      else api := by
  by_cases hg : e.glCorePatchThrows = true <;> cases api <;> simp [applyPatches, installPatches, hg]

/-- The exit status of a run that finds the guest binary. -/
theorem main_status_of_found (cfg : BuildConfig) (e : Env) (h1 : e.parseOk = true)
    (h2 : e.printVersion = false) (h3 : e.gameFileFound = true) :
    (main cfg e).status = if (loadGuest e (preferredApi e)).1 = nullptr then 51 else 0 := by
  simp [main, h1, h2, h3]
  split <;> simp

/-- The final mode of a run that finds the guest binary. -/
theorem main_api_of_found (cfg : BuildConfig) (e : Env) (h1 : e.parseOk = true)
    (h2 : e.printVersion = false) (h3 : e.gameFileFound = true) :
    (main cfg e).options.graphicsApi =
      if (loadGuest e (preferredApi e)).1 = nullptr then (loadGuest e (preferredApi e)).2.1
      else (applyPatches cfg e (loadGuest e (preferredApi e)).1
        (loadGuest e (preferredApi e)).2.1).1 := by
  simp [main, h1, h2, h3]
  split <;> simp

/-- The final `options` of a run that finds the guest binary. -/
theorem main_options_of_found (cfg : BuildConfig) (e : Env) (h1 : e.parseOk = true)
    (h2 : e.printVersion = false) (h3 : e.gameFileFound = true) :
    (main cfg e).options =
      { windowWidth := e.windowWidth, windowHeight := e.windowHeight,
        graphicsApi :=
          if (loadGuest e (preferredApi e)).1 = nullptr then (loadGuest e (preferredApi e)).2.1
          else (applyPatches cfg e (loadGuest e (preferredApi e)).1
            (loadGuest e (preferredApi e)).2.1).1 } := by
  simp [main, h1, h2, h3]
  split <;> simp

/-- The calls of a load of the guest binary that fails under desktop GL. -/
theorem loadGuest_retry (e : Env) (hfail : e.loadMinecraftLib1 = nullptr) :
    loadGuest e GraphicsApi.OPENGL =
      (e.loadMinecraftLib2, GraphicsApi.OPENGL_ES2,
        [Step.Log LogLevel.trace "Launcher",
         Step.MinecraftUtils_loadMinecraftLib nullptr,
         Step.set_graphicsApi GraphicsApi.OPENGL_ES2,
         Step.linker_dlopen (LibFile.named "libGLESv2.so"),
         Step.linker_dlclose e.libGLESv2,
         Step.call Call.FakeLooper_initWindow,
         Step.call Call.MinecraftUtils_setupGLES2Symbols,
         Step.MinecraftUtils_loadMinecraftLib e.loadMinecraftLib2]) := by
  simp [loadGuest, hfail]

theorem main_trace_around_audio (cfg : BuildConfig) (e : Env) (h1 : e.parseOk = true)
    (h2 : e.printVersion = false) (h3 : e.gameFileFound = true) :
    (main cfg e).trace = beforeAudio cfg e ++ audioStep e ++ afterAudio cfg e := by
  rw [main_trace_of_found cfg e h1 h2 h3]
  simp [beforeAudio, afterAudio, supportSteps, loadAudio]

theorem audio_quiet_before (cfg : BuildConfig) (e : Env) :
    List.countP Step.isLoadFMod (beforeAudio cfg e) = 0
    ∧ List.countP Step.isWarning (beforeAudio cfg e) = 0 := by
  constructor
  · simp only [beforeAudio, parseArguments, bootSteps, applyOptions, installRedirections,
      loadRuntime, findGuestBinary, countP_ite, List.countP_append, List.countP_cons,
      List.countP_nil, List.countP_map, Step.isLoadFMod, ite_self]
    simp [Function.comp_def, Step.isLoadFMod]
  · simp only [beforeAudio, parseArguments, bootSteps, applyOptions, installRedirections,
      loadRuntime, findGuestBinary, countP_ite, List.countP_append, List.countP_cons,
      List.countP_nil, List.countP_map, Step.isWarning, ite_self]
    simp [Function.comp_def, Step.isWarning]

/-- The calls of the load of the guest binary. -/
theorem loadGuest_steps (e : Env) (api : GraphicsApi) :
    (loadGuest e api).2.2 =
      [Step.Log LogLevel.trace "Launcher",
       Step.MinecraftUtils_loadMinecraftLib e.loadMinecraftLib1]
      ++ (if e.loadMinecraftLib1 = nullptr ∧ api = GraphicsApi.OPENGL then
            [Step.set_graphicsApi GraphicsApi.OPENGL_ES2,
             Step.linker_dlopen (LibFile.named "libGLESv2.so"),
             Step.linker_dlclose e.libGLESv2,
             Step.call Call.FakeLooper_initWindow,
             Step.call Call.MinecraftUtils_setupGLES2Symbols,
             Step.MinecraftUtils_loadMinecraftLib e.loadMinecraftLib2]
          else []) := by
  by_cases h : e.loadMinecraftLib1 = nullptr ∧ api = GraphicsApi.OPENGL <;> simp [loadGuest, h]

/-- The calls of the patches. -/
theorem applyPatches_steps (cfg : BuildConfig) (e : Env) (handle : Ptr) (api : GraphicsApi) :
    (applyPatches cfg e handle api).2 =
      installPatches cfg e handle
      ++ (if api = GraphicsApi.OPENGL then
            (if e.glCorePatchThrows = true then
              [Step.GLCorePatch_install handle true,
               Step.Log LogLevel.error "GLCOREPATCH",
               Step.set_graphicsApi GraphicsApi.OPENGL_ES2]
            else [Step.GLCorePatch_install handle false])
          else []) := by
  by_cases hg : e.glCorePatchThrows = true <;> cases api <;> simp [applyPatches, hg]

theorem audio_quiet_after (cfg : BuildConfig) (e : Env) :
    List.countP Step.isLoadFMod (afterAudio cfg e) = 0
    ∧ List.countP Step.isWarning (afterAudio cfg e) = 0 := by
  constructor
  · simp only [afterAudio, loadRendering, loadAndroid, loadGuest_steps, applyPatches_steps,
      installPatches, runGame, countP_ite, List.countP_append, List.countP_cons,
      List.countP_nil, Step.isLoadFMod, ite_self]
    simp
  · simp only [afterAudio, loadRendering, loadAndroid, loadGuest_steps, applyPatches_steps,
      installPatches, runGame, countP_ite, List.countP_append, List.countP_cons,
      List.countP_nil, Step.isWarning, ite_self]
    simp

/-! ## Properties of the run -/

/-- C3, as amended.  In every run that reaches the load of the guest binary, the libraries
of the spec's load order are loaded in this order: the C runtime, the math runtime, the
audio backend (unless `--disable-fmod` is given), the rendering library (the GLES2 symbol
source when `options.graphicsApi` is `OPENGL_ES2`, the empty stub otherwise),
`libandroid.so` with the table built from the hooks and the stubs, the guest binary; and,
when the first load yields no handle under desktop GL, the GLES2 symbol source and the
guest binary once more.  The audio backend comes before the guest binary. -/
theorem C3_load_order (cfg : BuildConfig) (e : Env) (h1 : e.parseOk = true)
    (h2 : e.printVersion = false) (h3 : e.gameFileFound = true) :
    loadOrder (main cfg e).trace =
      [Library.cRuntime, Library.mathRuntime]
        ++ (if e.disableFmod then [] else [Library.audioBackend])
        ++ [Library.rendering (decide (preferredApi e = GraphicsApi.OPENGL_ES2)),
            Library.platform e.android_syms, Library.guestBinary]
        ++ (if e.loadMinecraftLib1 = nullptr ∧ preferredApi e = GraphicsApi.OPENGL then
              [Library.rendering true, Library.guestBinary]
            else []) := by
  rw [main_trace_of_found cfg e h1 h2 h3]
  have hr : decide (preferredApi e = GraphicsApi.OPENGL_ES2) = e.forceEgl := by
    by_cases hf : e.forceEgl = true <;> simp [preferredApi, hf]
  have htail : loadOrder (if (loadGuest e (preferredApi e)).1 = nullptr then
        [Step.Log LogLevel.error "Launcher"]
      else (applyPatches cfg e (loadGuest e (preferredApi e)).1
        (loadGuest e (preferredApi e)).2.1).2 ++ runGame (loadGuest e (preferredApi e)).1) = [] := by
    split
    · simp [loadOrder, Step.loads]
    · rw [loadOrder_append]
      exact loadOrder_applyPatches cfg e _ _
  rw [loadOrder_append, loadOrder_append, loadOrder_append, loadOrder_boot, loadOrder_support,
    loadOrder_loadGuest, htail, hr]
  simp

/-- C3, witness: the load order of the sample run. -/
theorem C3_load_order_witness :
    loadOrder (main sampleConfig sampleEnv).trace =
      [Library.cRuntime, Library.mathRuntime, Library.audioBackend, Library.rendering false,
       Library.platform sampleEnv.android_syms, Library.guestBinary] :=
  (C3_load_order sampleConfig sampleEnv rfl rfl rfl).trans (by decide)

/-- C3, counterexample.  The sample run reaches the load of the guest binary with audio
enabled; its load order has the audio backend third, before the guest binary, and so is
not the order the spec gives. -/
theorem C3_audio_loaded_before_guest :
    (sampleEnv.parseOk = true ∧ sampleEnv.printVersion = false ∧ sampleEnv.gameFileFound = true
      ∧ sampleEnv.disableFmod = false)
    ∧ (loadOrder (main sampleConfig sampleEnv).trace).indexOf Library.audioBackend = 2
    ∧ (loadOrder (main sampleConfig sampleEnv).trace).indexOf Library.guestBinary = 5
    ∧ loadOrder (main sampleConfig sampleEnv).trace
        ≠ specLoadOrder false sampleEnv.android_syms true := by
  decide

/-- C1.  In every run in which the first call of `loadMinecraftLib` returns no handle
while `options.graphicsApi` is `OPENGL`: right after that call `options.graphicsApi` is set
to `OPENGL_ES2`, then the `libGLESv2.so` stub is opened and closed, then the window is
initialised and the GLES2 symbols are installed, then `loadMinecraftLib` is called again;
no other call of `loadMinecraftLib` is made before or after, so the run makes exactly two
load attempts, and `GLCorePatch::install` is never called.  When the second call returns no
handle the status is 51; when it returns a handle the status is 0 and
`options.graphicsApi` is `OPENGL_ES2` when the run ends. -/
theorem C1_retry_once (cfg : BuildConfig) (e : Env) (h1 : e.parseOk = true)
    (h2 : e.printVersion = false) (h3 : e.gameFileFound = true)
    (hgl : preferredApi e = GraphicsApi.OPENGL) (hfail : e.loadMinecraftLib1 = nullptr) :
    (∃ pre post,
      (main cfg e).trace =
        pre ++ [Step.MinecraftUtils_loadMinecraftLib nullptr,
                Step.set_graphicsApi GraphicsApi.OPENGL_ES2,
                Step.linker_dlopen (LibFile.named "libGLESv2.so"),
                Step.linker_dlclose e.libGLESv2,
                Step.call Call.FakeLooper_initWindow,
                Step.call Call.MinecraftUtils_setupGLES2Symbols,
                Step.MinecraftUtils_loadMinecraftLib e.loadMinecraftLib2] ++ post
      ∧ List.countP Step.isGuestLoad pre = 0
      ∧ List.countP Step.isGuestLoad post = 0)
    ∧ List.countP Step.isGuestLoad (main cfg e).trace = 2
    ∧ List.countP Step.isGLCorePatch (main cfg e).trace = 0
    ∧ (e.loadMinecraftLib2 = nullptr →
        (main cfg e).status = 51 ∧ (main cfg e).options.graphicsApi = GraphicsApi.OPENGL_ES2)
    ∧ (e.loadMinecraftLib2 ≠ nullptr →
        (main cfg e).status = 0 ∧ (main cfg e).options.graphicsApi = GraphicsApi.OPENGL_ES2) := by
  have hlg := loadGuest_retry e hfail
  have hbefore := guestLoads_before cfg e
  have hpatch := glCorePatch_before cfg e (preferredApi e)
  have hstatus := main_status_of_found cfg e h1 h2 h3
  have hapi := main_api_of_found cfg e h1 h2 h3
  have htrace := main_trace_of_found cfg e h1 h2 h3
  rw [hgl] at hpatch hstatus hapi htrace
  rw [hlg] at hpatch hstatus hapi htrace
  simp only at hpatch hstatus hapi htrace
  have hpost : List.countP Step.isGuestLoad
      (if e.loadMinecraftLib2 = nullptr then [Step.Log LogLevel.error "Launcher"]
       else (applyPatches cfg e e.loadMinecraftLib2 GraphicsApi.OPENGL_ES2).2
          ++ runGame e.loadMinecraftLib2) = 0 := by
    split
    · simp [Step.isGuestLoad]
    · exact guestLoads_after cfg e _ _
  have hpost2 : List.countP Step.isGLCorePatch
      (if e.loadMinecraftLib2 = nullptr then [Step.Log LogLevel.error "Launcher"]
       else (applyPatches cfg e e.loadMinecraftLib2 GraphicsApi.OPENGL_ES2).2
          ++ runGame e.loadMinecraftLib2) = 0 := by
    split
    · simp [Step.isGLCorePatch]
    · rw [glCorePatch_after]
      simp
  refine ⟨⟨parseArguments e ++ bootSteps cfg e ++ findGuestBinary e ++ supportSteps e
      ++ [Step.Log LogLevel.trace "Launcher"], _, ?_, ?_, hpost⟩, ?_, ?_, ?_, ?_⟩
  · rw [htrace]
    simp
  · rw [List.countP_append, hbefore]
    simp [Step.isGuestLoad]
  · rw [htrace, List.countP_append, List.countP_append, hbefore, hpost]
    simp [Step.isGuestLoad]
  · rw [htrace, List.countP_append, hpatch, hpost2]
  · intro h
    rw [hstatus, hapi]
    simp [h]
  · intro h
    rw [hstatus, hapi, applyPatches_api]
    simp [h]

/-- C1, witness: the run `retryEnv` makes two load attempts, never calls
`GLCorePatch::install`, and ends with status 0 in the mode `OPENGL_ES2`. -/
theorem C1_retry_once_witness :
    (retryEnv.parseOk = true ∧ retryEnv.printVersion = false ∧ retryEnv.gameFileFound = true
      ∧ preferredApi retryEnv = GraphicsApi.OPENGL ∧ retryEnv.loadMinecraftLib1 = nullptr)
    ∧ List.countP Step.isGuestLoad (main sampleConfig retryEnv).trace = 2
    ∧ List.countP Step.isGLCorePatch (main sampleConfig retryEnv).trace = 0
    ∧ (main sampleConfig retryEnv).status = 0
    ∧ (main sampleConfig retryEnv).options.graphicsApi = GraphicsApi.OPENGL_ES2 :=
  have h := C1_retry_once sampleConfig retryEnv rfl rfl rfl rfl rfl
  ⟨⟨rfl, rfl, rfl, rfl, rfl⟩, h.2.1, h.2.2.1, (h.2.2.2.2 (by decide)).1,
    (h.2.2.2.2 (by decide)).2⟩

theorem mem_ite {α : Type} (x : α) (c : Prop) [Decidable c] (a b : List α) :
    x ∈ (if c then a else b) ↔ (c ∧ x ∈ a) ∨ (¬ c ∧ x ∈ b) := by
  split <;> simp [*]

/-- C5.  The exit status of `main` is 0, 1 or 51, and is decided by what the collaborators
answer.  It is 1 exactly when the parsing of the command line fails, or it succeeds without
`--version` and the look-up of `lib/<abi>/libminecraftpe.so` fails.  It is 51 exactly when
the parsing succeeds without `--version`, the look-up succeeds, the first call of
`loadMinecraftLib` returns no handle and, when a retry is made (the mode was `OPENGL`), the
second call returns none either.  It is 0 in every other case: the parsing succeeds and
either `--version` is given, or the look-up succeeds and the first load, or the retry under
`OPENGL`, returns a handle.  The record of the run agrees: the parse failure, the failed
or successful look-up, the calls of `loadMinecraftLib` with their results, the printing of
the version and the execution of the main thread occur exactly in these cases, so that the
status is 1 exactly when the run holds a failed parse or a failed look-up, 51 exactly when
it holds a successful look-up and only load attempts without a handle, and 0 exactly when it
prints the version or executes the main thread after a load that returned a handle. -/
theorem C5_exit_status (cfg : BuildConfig) (e : Env) :
    ((main cfg e).status = 0 ∨ (main cfg e).status = 1 ∨ (main cfg e).status = 51)
    ∧ ((main cfg e).status = 1 ↔
        (e.parseOk = false ∨ (e.printVersion = false ∧ e.gameFileFound = false)))
    ∧ ((main cfg e).status = 51 ↔
        (e.parseOk = true ∧ e.printVersion = false ∧ e.gameFileFound = true
          ∧ e.loadMinecraftLib1 = nullptr
          ∧ (preferredApi e = GraphicsApi.OPENGL → e.loadMinecraftLib2 = nullptr)))
    ∧ ((main cfg e).status = 0 ↔
        (e.parseOk = true
          ∧ (e.printVersion = true
              ∨ (e.gameFileFound = true
                  ∧ (e.loadMinecraftLib1 ≠ nullptr
                      ∨ (preferredApi e = GraphicsApi.OPENGL
                          ∧ e.loadMinecraftLib2 ≠ nullptr))))))
    ∧ (Step.arg_parser_parse false ∈ (main cfg e).trace ↔ e.parseOk = false)
    ∧ (Step.call Call.printVersionInfo ∈ (main cfg e).trace ↔
        (e.parseOk = true ∧ e.printVersion = true))
    ∧ (Step.PathHelper_findGameFile (guestBinaryPath e) false ∈ (main cfg e).trace ↔
        (e.parseOk = true ∧ e.printVersion = false ∧ e.gameFileFound = false))
    ∧ (Step.PathHelper_findGameFile (guestBinaryPath e) true ∈ (main cfg e).trace ↔
        (e.parseOk = true ∧ e.printVersion = false ∧ e.gameFileFound = true))
    ∧ (∀ h, Step.MinecraftUtils_loadMinecraftLib h ∈ (main cfg e).trace ↔
        (e.parseOk = true ∧ e.printVersion = false ∧ e.gameFileFound = true
          ∧ (h = e.loadMinecraftLib1
              ∨ (e.loadMinecraftLib1 = nullptr ∧ preferredApi e = GraphicsApi.OPENGL
                  ∧ h = e.loadMinecraftLib2))))
    ∧ (Step.call Call.ThreadMover_executeMainThread ∈ (main cfg e).trace ↔
        (e.parseOk = true ∧ e.printVersion = false ∧ e.gameFileFound = true
          ∧ (e.loadMinecraftLib1 ≠ nullptr
              ∨ (preferredApi e = GraphicsApi.OPENGL ∧ e.loadMinecraftLib2 ≠ nullptr))))
    ∧ ((main cfg e).status = 1 ↔
        (Step.arg_parser_parse false ∈ (main cfg e).trace
          ∨ Step.PathHelper_findGameFile (guestBinaryPath e) false ∈ (main cfg e).trace))
    ∧ ((main cfg e).status = 51 ↔
        (Step.PathHelper_findGameFile (guestBinaryPath e) true ∈ (main cfg e).trace
          ∧ ∀ h, Step.MinecraftUtils_loadMinecraftLib h ∈ (main cfg e).trace → h = nullptr))
    ∧ (Step.PathHelper_findGameFile (guestBinaryPath e) true ∈ (main cfg e).trace →
        ∃ h, Step.MinecraftUtils_loadMinecraftLib h ∈ (main cfg e).trace)
    ∧ ((main cfg e).status = 0 ↔
        ((main cfg e).status ≠ 1 ∧ (main cfg e).status ≠ 51))
    ∧ ((main cfg e).status = 0 ↔
        (Step.call Call.printVersionInfo ∈ (main cfg e).trace
          ∨ (Step.call Call.ThreadMover_executeMainThread ∈ (main cfg e).trace
              ∧ ∃ h, h ≠ nullptr
                  ∧ Step.MinecraftUtils_loadMinecraftLib h ∈ (main cfg e).trace))) := by
  by_cases h1 : e.parseOk = true
  · by_cases h2 : e.printVersion = true
    · simp [main, h1, h2, parseArguments]
    · by_cases h3 : e.gameFileFound = true
      · by_cases hl1 : e.loadMinecraftLib1 = nullptr
        · by_cases hf : e.forceEgl = true
          · simp [main, h1, h2, h3, parseArguments, bootSteps, applyOptions,
                installRedirections, loadRuntime, findGuestBinary, supportSteps, loadAudio,
                audioStep, loadRendering, loadAndroid, loadGuest, preferredApi, mem_ite, hl1, hf]
          · by_cases hl2 : e.loadMinecraftLib2 = nullptr
            · simp [main, h1, h2, h3, parseArguments, bootSteps, applyOptions,
                installRedirections, loadRuntime, findGuestBinary, supportSteps, loadAudio,
                audioStep, loadRendering, loadAndroid, loadGuest, preferredApi, mem_ite, hl1, hf, hl2]
            · simp [main, h1, h2, h3, parseArguments, bootSteps, applyOptions,
                installRedirections, loadRuntime, findGuestBinary, supportSteps, loadAudio,
                audioStep, loadRendering, loadAndroid, loadGuest, preferredApi, mem_ite, hl1, hf, hl2,
                applyPatches, installPatches, runGame]
              exact ⟨_, hl2, Or.inr rfl⟩
        · by_cases hf : e.forceEgl = true <;> by_cases hg : e.glCorePatchThrows = true <;>
            simp [main, h1, h2, h3, parseArguments, bootSteps, applyOptions,
                installRedirections, loadRuntime, findGuestBinary, supportSteps, loadAudio,
                audioStep, loadRendering, loadAndroid, loadGuest, preferredApi, mem_ite, hl1, hf, hg,
              applyPatches, installPatches, runGame]
      · simp [main, h1, h2, h3, parseArguments, bootSteps, applyOptions, installRedirections,
          loadRuntime, findGuestBinary, mem_ite]
  · simp [main, h1, parseArguments]

/-- C5, witness: the status of four runs.  A failed parse gives 1 even with `--version`;
`--version` gives 0 even when the guest binary is missing; a missing guest binary gives 1;
a first load without a handle under forced GLES2 gives 51. -/
theorem C5_exit_status_witness :
    (main sampleConfig { sampleEnv with parseOk := false, printVersion := true }).status = 1
    ∧ (main sampleConfig { sampleEnv with printVersion := true, gameFileFound := false }).status
        = 0
    ∧ (main sampleConfig { sampleEnv with gameFileFound := false }).status = 1
    ∧ (main sampleConfig
        { sampleEnv with forceEgl := true, loadMinecraftLib1 := nullptr }).status = 51 :=
  ⟨(C5_exit_status sampleConfig
      { sampleEnv with parseOk := false, printVersion := true }).2.1.mpr (Or.inl rfl),
   (C5_exit_status sampleConfig
      { sampleEnv with printVersion := true, gameFileFound := false }).2.2.2.1.mpr
        ⟨rfl, Or.inl rfl⟩,
   (C5_exit_status sampleConfig { sampleEnv with gameFileFound := false }).2.1.mpr
      (Or.inr ⟨rfl, rfl⟩),
   (C5_exit_status sampleConfig
      { sampleEnv with forceEgl := true, loadMinecraftLib1 := nullptr }).2.2.1.mpr
        ⟨rfl, rfl, rfl, rfl, by decide⟩⟩

/-- C4.  In every run that loads the guest binary: when the load succeeded under
`OPENGL` and `GLCorePatch::install` throws, the throw is logged, `options.graphicsApi` is
set to `OPENGL_ES2`, and `main` goes on with the JNI initialisation: it constructs the JNI
support, hands it to the looper, registers the natives, spawns and detaches the thread that
starts the game, executes the main thread, stops the looper, shuts the session service down
and ends the process with status 0.  None of these calls, and no call of the spawned
thread, is `linker::load_library`, `linker::dlopen`, `linker::dlopen_ext`,
`MinecraftUtils::setupGLES2Symbols` or `MinecraftUtils::loadMinecraftLib`, and the patch is
called this one time only.  When `options.graphicsApi` is `OPENGL_ES2` after the load,
`GLCorePatch::install` is not called in the run. -/
theorem C4_patch_failure_falls_back (cfg : BuildConfig) (e : Env) (h1 : e.parseOk = true)
    (h2 : e.printVersion = false) (h3 : e.gameFileFound = true)
    (hload : (loadGuest e (preferredApi e)).1 ≠ nullptr) :
    ((loadGuest e (preferredApi e)).2.1 = GraphicsApi.OPENGL → e.glCorePatchThrows = true →
      (main cfg e).options.graphicsApi = GraphicsApi.OPENGL_ES2
      ∧ (main cfg e).status = 0
      ∧ (∃ pre post, (main cfg e).trace =
            pre ++ [Step.GLCorePatch_install (loadGuest e (preferredApi e)).1 true,
                    Step.Log LogLevel.error "GLCOREPATCH",
                    Step.set_graphicsApi GraphicsApi.OPENGL_ES2] ++ post
          ∧ List.countP Step.isGLCorePatch pre = 0
          ∧ post =
              [Step.Log LogLevel.info "Launcher",
               Step.call Call.JniSupport_construct,
               Step.call Call.FakeLooper_setJniSupport,
               Step.call Call.JniSupport_registerMinecraftNatives,
               Step.startThread_spawn
                 [ThreadCall.linker_dlsym (loadGuest e (preferredApi e)).1
                    "ANativeActivity_onCreate",
                  ThreadCall.linker_dlsym (loadGuest e (preferredApi e)).1
                    "stbi_load_from_memory",
                  ThreadCall.linker_dlsym (loadGuest e (preferredApi e)).1 "stbi_image_free",
                  ThreadCall.JniSupport_startGame,
                  ThreadCall.linker_dlclose (loadGuest e (preferredApi e)).1],
               Step.call Call.startThread_detach,
               Step.Log LogLevel.info "Launcher",
               Step.call Call.ThreadMover_executeMainThread,
               Step.JniSupport_setLooperRunning false,
               Step.call Call.XboxLiveHelper_shutdown,
               Step.process_Exit 0]
          ∧ List.countP Step.isLibraryLoad post = 0
          ∧ List.countP Step.isGLCorePatch post = 0))
    ∧ ((loadGuest e (preferredApi e)).2.1 = GraphicsApi.OPENGL_ES2 →
        List.countP Step.isGLCorePatch (main cfg e).trace = 0) := by
  have hstatus := main_status_of_found cfg e h1 h2 h3
  have hapi := main_api_of_found cfg e h1 h2 h3
  have htrace := main_trace_of_found cfg e h1 h2 h3
  have hbefore := glCorePatch_before cfg e (preferredApi e)
  simp only [hload, if_false] at hstatus hapi htrace
  constructor
  · intro hgl hthrow
    refine ⟨?_, hstatus, ⟨parseArguments e ++ bootSteps cfg e ++ findGuestBinary e
      ++ supportSteps e ++ (loadGuest e (preferredApi e)).2.2
      ++ installPatches cfg e (loadGuest e (preferredApi e)).1,
      runGame (loadGuest e (preferredApi e)).1, ?_, ?_, ?_, ?_, ?_⟩⟩
    · rw [hapi, applyPatches_api]
      simp [hgl, hthrow]
    · rw [htrace, hgl]
      simp [applyPatches, hthrow]
    · rw [List.countP_append, hbefore]
      by_cases hi : cfg.i386 = true <;> by_cases hb : e.has_bgfx_init = true <;>
        simp [installPatches, Step.isGLCorePatch, hi, hb]
    · rfl
    · simp [runGame, Step.isLibraryLoad]
    · simp [runGame, Step.isGLCorePatch]
  · intro hes
    rw [htrace, List.countP_append, hbefore, glCorePatch_after, hes]
    simp

/-- C4, witness: in the run `patchFailEnv` the patch throws, the mode ends as `OPENGL_ES2`,
the status is 0 and the run ends with the process exit; in the run `retryEnv` the mode is
`OPENGL_ES2` after the load and the patch is not called. -/
theorem C4_patch_failure_falls_back_witness :
    (main sampleConfig patchFailEnv).options.graphicsApi = GraphicsApi.OPENGL_ES2
    ∧ (main sampleConfig patchFailEnv).status = 0
    ∧ (main sampleConfig patchFailEnv).trace.getLast? = some (Step.process_Exit 0)
    ∧ Step.call Call.JniSupport_construct ∈ (main sampleConfig patchFailEnv).trace
    ∧ List.countP Step.isGLCorePatch (main sampleConfig retryEnv).trace = 0 :=
  have h := (C4_patch_failure_falls_back sampleConfig patchFailEnv rfl rfl rfl (by decide)).1
    (by decide) rfl
  ⟨h.1, h.2.1, by decide, by decide,
    (C4_patch_failure_falls_back sampleConfig retryEnv rfl rfl rfl (by decide)).2 (by decide)⟩

/-- C6.  In every run that reaches the audio step with audio enabled and in which
`loadFMod` throws: the run makes the call, records one warning right after it, and then
does exactly what the run that differs only in that `loadFMod` returns does after the call;
the call of `loadFMod` is the only one, the warning is the only one of the run, and the two
runs end with the same `options` (so the same `graphicsApi`) and the same status.  In every
run with `--disable-fmod`, `loadFMod` is not called. -/
theorem C6_audio_failure_is_skipped (cfg : BuildConfig) (e : Env) :
    (e.parseOk = true → e.printVersion = false → e.gameFileFound = true →
      e.disableFmod = false → e.loadFModThrows = true →
      (∃ pre post,
        (main cfg e).trace =
          pre ++ [Step.MinecraftUtils_loadFMod true, Step.Log LogLevel.warn "FMOD"] ++ post
        ∧ (main cfg { e with loadFModThrows := false }).trace =
          pre ++ [Step.MinecraftUtils_loadFMod false] ++ post
        ∧ List.countP Step.isLoadFMod pre = 0
        ∧ List.countP Step.isLoadFMod post = 0)
      ∧ List.countP Step.isWarning (main cfg e).trace = 1
      ∧ (main cfg e).options = (main cfg { e with loadFModThrows := false }).options
      ∧ (main cfg e).status = (main cfg { e with loadFModThrows := false }).status)
    ∧ (e.disableFmod = true → List.countP Step.isLoadFMod (main cfg e).trace = 0) := by
  constructor
  · intro h1 h2 h3 hd ht
    have htrace := main_trace_around_audio cfg e h1 h2 h3
    have htrace2 := main_trace_around_audio cfg { e with loadFModThrows := false } h1 h2 h3
    have hb : beforeAudio cfg { e with loadFModThrows := false } = beforeAudio cfg e := rfl
    have ha : afterAudio cfg { e with loadFModThrows := false } = afterAudio cfg e := rfl
    have hs : audioStep e = [Step.MinecraftUtils_loadFMod true, Step.Log LogLevel.warn "FMOD"] := by
      simp [audioStep, hd, ht]
    have hs2 : audioStep { e with loadFModThrows := false }
        = [Step.MinecraftUtils_loadFMod false] := by
      simp [audioStep, hd]
    rw [hb, ha, hs2] at htrace2
    rw [hs] at htrace
    refine ⟨⟨beforeAudio cfg e, afterAudio cfg e, htrace, htrace2,
      (audio_quiet_before cfg e).1, (audio_quiet_after cfg e).1⟩, ?_, ?_, ?_⟩
    · rw [htrace, List.countP_append, List.countP_append, (audio_quiet_before cfg e).2,
        (audio_quiet_after cfg e).2]
      simp [Step.isWarning]
    · rw [main_options_of_found cfg e h1 h2 h3,
        main_options_of_found cfg { e with loadFModThrows := false } h1 h2 h3]
      simp only [loadGuest_handle, loadGuest_api, applyPatches_api, preferredApi]
    · rw [main_status_of_found cfg e h1 h2 h3,
        main_status_of_found cfg { e with loadFModThrows := false } h1 h2 h3]
      simp only [loadGuest_handle, preferredApi]
  · intro hd
    by_cases h1 : e.parseOk = true
    · by_cases h2 : e.printVersion = true
      · simp [main, h1, h2, parseArguments, Step.isLoadFMod]
      · by_cases h3 : e.gameFileFound = true
        · rw [main_trace_around_audio cfg e h1 (by simpa using h2) h3, List.countP_append,
            List.countP_append, (audio_quiet_before cfg e).1, (audio_quiet_after cfg e).1]
          simp [audioStep, hd]
        · have hq := (audio_quiet_before cfg e).1
          rw [beforeAudio, List.countP_append] at hq
          have ht : (main cfg e).trace
              = parseArguments e ++ bootSteps cfg e ++ findGuestBinary e := by
            simp [main, h1, h2, h3]
          rw [ht]
          omega
    · simp [main, h1, parseArguments, Step.isLoadFMod]

/-- C6, witness: in the run `audioFailEnv` the audio backend throws; the run records one
warning, and ends as the sample run, in which `loadFMod` returns, does.  In the run
`audioOffEnv`, with `--disable-fmod`, `loadFMod` is not called. -/
theorem C6_audio_failure_is_skipped_witness :
    List.countP Step.isWarning (main sampleConfig audioFailEnv).trace = 1
    ∧ (main sampleConfig audioFailEnv).options = (main sampleConfig sampleEnv).options
    ∧ (main sampleConfig audioFailEnv).status = (main sampleConfig sampleEnv).status
    ∧ List.countP Step.isLoadFMod (main sampleConfig audioOffEnv).trace = 0 :=
  have h := (C6_audio_failure_is_skipped sampleConfig audioFailEnv).1 rfl rfl rfl rfl rfl
  ⟨h.2.1, h.2.2.1, h.2.2.2, (C6_audio_failure_is_skipped sampleConfig audioOffEnv).2 rfl⟩

/-! ### Redirection -/

/-- The redirection table and destination of a run that gets past the command line. -/
theorem main_redirections (cfg : BuildConfig) (e : Env) (h1 : e.parseOk = true)
    (h2 : e.printVersion = false) :
    (main cfg e).from_android_data_dir = e.redirections
    ∧ (main cfg e).to_android_data_dir = e.primaryDataDirectory := by
  by_cases h3 : e.gameFileFound = true
  · by_cases h4 : (loadGuest e (preferredApi e)).1 = nullptr <;>
      simp [main, h1, h2, h3, h4, to_android_data_dir]
  · simp [main, h1, h2, h3, to_android_data_dir]

theorem string_ne_empty (s : String) (h : s ≠ "") : s.data.head? ≠ none := by
  intro hn
  apply h
  cases hs : s.data with
  | nil => exact String.ext hs
  | cons c cs => simp [hs] at hn

/-- C2.  In every run that gets past the command line, `shim::to_android_data_dir` is the
primary data directory and `shim::from_android_data_dir` is, in this order: the legacy
path; `"/data/data" + parentDir(appDir) + "/proc/" + pid + "/cmdline"`; when `argc >= 1`
and `argv[0]` is a non-empty string, `"/data/data" + argv[0]` if it starts with `/` and
`"/data/data/" + argv[0]` otherwise; and `"/data/data"`.  When `argv[0]` is missing or
empty the table has the other three entries only.  With `argv[0] = "/opt/launcher/bin"`
and pid 4242 the table contains `"/data/data/opt/launcher/bin"`. -/
theorem C2_redirection_table (cfg : BuildConfig) (e : Env) (h1 : e.parseOk = true)
    (h2 : e.printVersion = false) :
    (main cfg e).to_android_data_dir = e.primaryDataDirectory
    ∧ (∀ a0 rest, e.argc ≥ 1 → e.argv = some (some a0 :: rest) → a0 ≠ "" →
        (main cfg e).from_android_data_dir =
          ["/data/data/com.mojang.minecraftpe",
           "/data/data" ++ e.getParentDir e.appDir ++ "/proc/" ++ toString e.pid ++ "/cmdline",
           if a0.data.head? = some '/' then "/data/data" ++ a0 else "/data/data/" ++ a0,
           "/data/data"])
    ∧ ((e.argc < 1 ∨ e.argv = none ∨ e.argv = some [] ∨ (∃ rest, e.argv = some (none :: rest))
          ∨ (∃ rest, e.argv = some (some "" :: rest))) →
        (main cfg e).from_android_data_dir =
          ["/data/data/com.mojang.minecraftpe",
           "/data/data" ++ e.getParentDir e.appDir ++ "/proc/" ++ toString e.pid ++ "/cmdline",
           "/data/data"])
    ∧ (∀ rest, e.argc ≥ 1 → e.argv = some (some "/opt/launcher/bin" :: rest) → e.pid = 4242 →
        "/data/data/opt/launcher/bin" ∈ (main cfg e).from_android_data_dir) := by
  obtain ⟨hfrom, hto⟩ := main_redirections cfg e h1 h2
  refine ⟨hto, ?_, ?_, ?_⟩
  · intro a0 rest hc hv hne
    have hh := string_ne_empty a0 hne
    rw [hfrom]
    simp [Env.redirections, from_android_data_dir, invokingProgram, hc, hv, hh]
  · intro h
    rw [hfrom]
    rcases h with h | h | h | ⟨rest, h⟩ | ⟨rest, h⟩
    · have hc : ¬ e.argc ≥ 1 := by omega
      simp [Env.redirections, from_android_data_dir, invokingProgram, hc]
    · by_cases hc : e.argc ≥ 1 <;>
        simp [Env.redirections, from_android_data_dir, invokingProgram, hc, h]
    · by_cases hc : e.argc ≥ 1 <;>
        simp [Env.redirections, from_android_data_dir, invokingProgram, hc, h]
    · by_cases hc : e.argc ≥ 1 <;>
        simp [Env.redirections, from_android_data_dir, invokingProgram, hc, h]
    · by_cases hc : e.argc ≥ 1 <;>
        simp [Env.redirections, from_android_data_dir, invokingProgram, hc, h]
  · intro rest hc hv _
    rw [hfrom]
    have hd : ("/opt/launcher/bin" : String).data.head? = some '/' := by decide
    simp [Env.redirections, from_android_data_dir, invokingProgram, hc, hv, hd]

/-- C2, witness: the table and the destination of the sample run, started as
`/opt/launcher/bin` with pid 4242. -/
theorem C2_redirection_table_witness :
    (main sampleConfig sampleEnv).to_android_data_dir = "/home/u/.local/share/mcpelauncher/"
    ∧ (main sampleConfig sampleEnv).from_android_data_dir =
        ["/data/data/com.mojang.minecraftpe", "/data/data/opt/launcher/proc/4242/cmdline",
         "/data/data/opt/launcher/bin", "/data/data"] :=
  have h := C2_redirection_table sampleConfig sampleEnv rfl rfl
  ⟨h.1, (h.2.1 "/opt/launcher/bin" [] (by decide) rfl (by decide)).trans (by decide)⟩

/-- The rewriting of a path that some entry of the table is a prefix of. -/
theorem rewritePath_of_match (table : List String) (d path : String)
    (hmatch : ∃ src ∈ table, isPrefixOfPath src path = true) :
    ∃ pre src post, table = pre ++ src :: post
      ∧ (∀ s ∈ pre, isPrefixOfPath s path = false)
      ∧ isPrefixOfPath src path = true
      ∧ rewritePath table d path = d ++ suffixAfter src path := by
  cases hf : table.find? (fun src => isPrefixOfPath src path) with
  | none =>
    obtain ⟨src, hmem, hp⟩ := hmatch
    have := List.find?_eq_none.mp hf src hmem
    simp [hp] at this
  | some src =>
    obtain ⟨hp, pre, post, htab, hpre⟩ := List.find?_eq_some.mp hf
    refine ⟨pre, src, post, htab, ?_, hp, ?_⟩
    · intro s hs
      simpa using hpre s hs
    · simp [rewritePath, hf]

/-- Two prefixes of a path that have the same length are the same string. -/
theorem prefix_eq_of_length_eq (s s' path : String)
    (hs : isPrefixOfPath s path = true) (hs' : isPrefixOfPath s' path = true)
    (hlen : s'.length = s.length) : s' = s := by
  have hp : s.data <+: path.data := by simpa [isPrefixOfPath] using hs
  have hp' : s'.data <+: path.data := by simpa [isPrefixOfPath] using hs'
  have e1 := List.prefix_iff_eq_take.mp hp
  have e2 := List.prefix_iff_eq_take.mp hp'
  have heq : s'.data.length = s.data.length := hlen
  apply String.ext
  rw [e2, e1, heq]

/-- C7.  With prefix-based, first-match-wins matching over the table built by `main`, for
every path that some table entry is a prefix of, the rewritten path is
`destination + suffix`, where `suffix` is what is left of the path after the matching
source prefix: the first entry, in declaration order, that is a prefix of the path.  Among
equally-prefixed entries it does not matter which one fires: every table entry that is a
prefix of the path and as long as the one that fired is that same prefix and gives the
same rewritten path. -/
theorem C7_first_match_decides (e : Env) (path : String)
    (hmatch : ∃ src ∈ e.redirections, isPrefixOfPath src path = true) :
    ∃ pre src post, e.redirections = pre ++ src :: post
      ∧ (∀ s ∈ pre, isPrefixOfPath s path = false)
      ∧ isPrefixOfPath src path = true
      ∧ rewritePath e.redirections (to_android_data_dir e.primaryDataDirectory) path
          = to_android_data_dir e.primaryDataDirectory ++ suffixAfter src path
      ∧ ∀ src' ∈ e.redirections, isPrefixOfPath src' path = true → src'.length = src.length →
          (src' = src
            ∧ to_android_data_dir e.primaryDataDirectory ++ suffixAfter src' path
              = rewritePath e.redirections (to_android_data_dir e.primaryDataDirectory) path)
      := by
  obtain ⟨pre, src, post, htab, hpre, hp, hrw⟩ :=
    rewritePath_of_match e.redirections (to_android_data_dir e.primaryDataDirectory) path hmatch
  refine ⟨pre, src, post, htab, hpre, hp, hrw, ?_⟩
  intro src' _ hp' hlen
  have heq := prefix_eq_of_length_eq src src' path hp hp' hlen
  refine ⟨heq, ?_⟩
  rw [hrw, heq]

/-- C7, witness: started as `com.mojang.minecraftpe`, `main` builds a table that holds the
legacy path twice, first and third; the sample path is rewritten to the destination
followed by what is left after the legacy path. -/
theorem C7_first_match_decides_witness :
    tieEnv.redirections =
        ["/data/data/com.mojang.minecraftpe", "/data/data/opt/launcher/proc/4242/cmdline",
         "/data/data/com.mojang.minecraftpe", "/data/data"]
    ∧ rewritePath tieEnv.redirections (to_android_data_dir tieEnv.primaryDataDirectory)
        samplePath
      = "/home/u/.local/share/mcpelauncher/" ++ "/games" := by
  have htable : tieEnv.redirections =
      ["/data/data/com.mojang.minecraftpe", "/data/data/opt/launcher/proc/4242/cmdline",
       "/data/data/com.mojang.minecraftpe", "/data/data"] := by decide
  refine ⟨htable, ?_⟩
  obtain ⟨pre, src, post, htab, hpre, _, hrw, _⟩ :=
    C7_first_match_decides tieEnv samplePath ⟨"/data/data", by decide, by decide⟩
  rw [htable] at htab
  cases pre with
  | nil =>
    simp only [List.nil_append, List.cons.injEq] at htab
    obtain ⟨hsrc, _⟩ := htab
    subst hsrc
    rw [hrw]
    decide
  | cons a rest =>
    simp only [List.cons_append, List.cons.injEq] at htab
    obtain ⟨ha, _⟩ := htab
    have hno := hpre a (List.mem_cons_self _ _)
    subst ha
    exact absurd hno (by decide)

/-! ### Stubbing -/

theorem stubMissingSymbols_extends (stub : Ptr) (syms : List (Option String)) (m : SymTable) :
    m <+: stubMissingSymbols stub syms m := by
  induction syms generalizing m with
  | nil => exact List.prefix_refl _
  | cons s rest ih =>
    cases s with
    | none => exact List.prefix_refl _
    | some s =>
      simp only [stubMissingSymbols]
      refine List.IsPrefix.trans ?_ (ih _)
      unfold SymTable.insert
      split
      · exact List.prefix_refl _
      · exact List.prefix_append _ _

/-- C10.  The table handed to `linker::load_library("libandroid.so", ...)` is the table
that the four `initHybrisHooks` calls produce, followed by added entries: nothing is removed
or replaced.  Every name bound by a hook keeps the pointer the hook gave it, also when the
name is listed in `android_symbols`; every name of `android_symbols` is bound; and, no hook
binding being the stub itself, the names bound to the logging stub are exactly the names of
`android_symbols` that no hook bound.  A run that finds the guest binary hands this table
to the linker. -/
theorem C10_stubbing_is_additive (cfg : BuildConfig) (e : Env)
    (hstub : ∀ kv ∈ e.hooked, kv.2 ≠ e.stub) :
    e.hooked <+: e.android_syms
    ∧ (∀ n p, SymTable.find e.hooked n = some p → SymTable.find e.android_syms n = some p)
    ∧ (∀ n ∈ namesOf e.android_symbols, SymTable.find e.android_syms n ≠ none)
    ∧ (∀ n, SymTable.find e.android_syms n = some e.stub ↔
        (n ∈ namesOf e.android_symbols ∧ SymTable.find e.hooked n = none))
    ∧ (e.parseOk = true → e.printVersion = false → e.gameFileFound = true →
        Step.linker_load_library "libandroid.so" e.android_syms ∈ (main cfg e).trace) := by
  have hdef : e.android_syms = stubMissingSymbols e.stub e.android_symbols e.hooked := rfl
  refine ⟨?_, ?_, ?_, ?_, ?_⟩
  · rw [hdef]
    exact stubMissingSymbols_extends _ _ _
  · intro n p h
    rw [hdef, find_stubMissingSymbols, h]
    rfl
  · intro n hn
    rw [hdef, find_stubMissingSymbols]
    cases h : SymTable.find e.hooked n <;> simp [hn]
  · intro n
    rw [hdef, find_stubMissingSymbols]
    cases h : SymTable.find e.hooked n with
    | none =>
      by_cases hn : n ∈ namesOf e.android_symbols <;> simp [hn]
    | some p =>
      have hne : p ≠ e.stub := hstub (n, p) (find_of_mem_values _ _ _ h)
      simp [hne]
  · intro h1 h2 h3
    rw [main_trace_of_found cfg e h1 h2 h3]
    simp [supportSteps, loadAndroid]

/-- C10, witness: in the sample run `ALooper_pollAll` is hooked and listed, and keeps its
hook; `AConfiguration_new` is listed only, and gets the stub. -/
theorem C10_stubbing_is_additive_witness :
    (∀ kv ∈ sampleEnv.hooked, kv.2 ≠ sampleEnv.stub)
    ∧ SymTable.find sampleEnv.android_syms "ALooper_pollAll" = some 23
    ∧ SymTable.find sampleEnv.android_syms "AConfiguration_new" = some sampleEnv.stub :=
  have h := C10_stubbing_is_additive sampleConfig sampleEnv (by decide)
  ⟨by decide, h.2.1 "ALooper_pollAll" 23 (by decide),
    (h.2.2.2.1 "AConfiguration_new").mpr ⟨by decide, by decide⟩⟩

/-! ### The guest object model -/

/-- C8, as amended.  On every `MainActivity`, with every input, the accessors return a
non-null value and do not fault: the class loader, the application context (the object
itself), the strings `"Linux"`, `"en"`, `"Linux"`, the version 27, the two directories and
the storage path (all the storage directory), the granted permission, the hardware
information, and empty arrays, never null, for the file bytes (whatever the path
reference, null included) and the two address lists; `hideKeyboard` and
`getCursorPosition` return with or without a collaborator; `showKeyboard` and
`updateTextboxText` return whenever no collaborator is attached or the string reference is
not null. -/
theorem C8_accessors_return (m : MainActivity) (path text newText : Option JString)
    (maxLen cursor : Int) (ignored ignored2 multiline : Bool) :
    m.getClassLoader ≠ none
    ∧ m.getApplicationContext = some m
    ∧ HardwareInfo.getAndroidVersion = some "Linux"
    ∧ m.getAndroidVersion = 27
    ∧ m.getLocale = some "en"
    ∧ m.getDeviceModel = some "Linux"
    ∧ m.getFilesDir = some { path := m.storageDirectory }
    ∧ m.getCacheDir = some { path := m.storageDirectory }
    ∧ m.getExternalStoragePath = some m.storageDirectory
    ∧ m.hasWriteExternalStoragePermission = true
    ∧ m.getHardwareInfo ≠ none
    ∧ m.getFileDataBytes path = some []
    ∧ m.getIPAddresses = some []
    ∧ m.getBroadcastAddresses = some []
    ∧ (∃ r, m.hideKeyboard = Except.ok r)
    ∧ (∃ r, m.getCursorPosition cursor = Except.ok r)
    ∧ ((m.textInput = nullptr ∨ text ≠ none) →
        ∃ r, m.showKeyboard text maxLen ignored ignored2 multiline = Except.ok r)
    ∧ ((m.textInput = nullptr ∨ newText ≠ none) →
        ∃ r, m.updateTextboxText newText = Except.ok r) := by
  refine ⟨by simp [MainActivity.getClassLoader, ClassLoader.getInstance], rfl, rfl, rfl, rfl,
    rfl, rfl, rfl, rfl, rfl, by simp [MainActivity.getHardwareInfo], rfl, rfl, rfl, ?_, ?_, ?_,
    ?_⟩
  · unfold MainActivity.hideKeyboard
    split <;> exact ⟨_, rfl⟩
  · unfold MainActivity.getCursorPosition
    split <;> exact ⟨_, rfl⟩
  · intro h
    unfold MainActivity.showKeyboard
    split
    · rename_i ht
      cases text with
      | none => simp [ht] at h
      | some t => exact ⟨_, rfl⟩
    · exact ⟨_, rfl⟩
  · intro h
    unfold MainActivity.updateTextboxText
    split
    · rename_i ht
      cases newText with
      | none => simp [ht] at h
      | some t => exact ⟨_, rfl⟩
    · exact ⟨_, rfl⟩

/-- C8, witness: with a collaborator attached and a string given, `showKeyboard` and
`updateTextboxText` return. -/
theorem C8_accessors_return_witness :
    (∃ r, sampleActivity.showKeyboard (some "abc") 16 false false true = Except.ok r)
    ∧ (∃ r, sampleActivity.updateTextboxText (some "abcd") = Except.ok r) :=
  have h := C8_accessors_return sampleActivity none (some "abc") (some "abcd") 16 0 false false
    true
  ⟨h.2.2.2.2.2.2.2.2.2.2.2.2.2.2.2.2.1 (Or.inr (by decide)),
    h.2.2.2.2.2.2.2.2.2.2.2.2.2.2.2.2.2 (Or.inr (by decide))⟩

/-- C8, counterexample.  With a collaborator attached, `showKeyboard` and
`updateTextboxText` called with a null string reference dereference it: they fault instead
of returning. -/
theorem C8_null_text_faults :
    sampleActivity.textInput ≠ nullptr
    ∧ sampleActivity.showKeyboard none 16 false false true
        = Except.error Fault.nullDereference
    ∧ sampleActivity.updateTextboxText none = Except.error Fault.nullDereference := by
  refine ⟨by decide, rfl, rfl⟩

/-- C9.  On every `MainActivity`: without a collaborator, `showKeyboard`, `hideKeyboard`
and `updateTextboxText` return the object unchanged and make no call, whatever their
arguments, and `getCursorPosition` returns 0; with a collaborator, `showKeyboard` makes the
one call `enable(text, multiline)` with the text and the flag given, whatever `maxLen` and
the two ignored flags are, `hideKeyboard` makes the one call `disable()`,
`updateTextboxText` makes the one call `update(newText)`, and `getCursorPosition` asks the
collaborator once and returns its answer; each of the four returns the object with
`storageDirectory`, `textInput` and `quitCallback` as they were. -/
theorem C9_text_input_bridge (m : MainActivity) (maxLen cursor : Int)
    (ignored ignored2 multiline : Bool) :
    (m.textInput = nullptr →
      (∀ text, m.showKeyboard text maxLen ignored ignored2 multiline = Except.ok ((), m, []))
      ∧ m.hideKeyboard = Except.ok ((), m, [])
      ∧ (∀ newText, m.updateTextboxText newText = Except.ok ((), m, []))
      ∧ m.getCursorPosition cursor = Except.ok (0, m, []))
    ∧ (m.textInput ≠ nullptr →
      (∀ text : String, m.showKeyboard (some text) maxLen ignored ignored2 multiline
          = Except.ok ((), m, [TextInputCall.enable text multiline]))
      ∧ m.hideKeyboard = Except.ok ((), m, [TextInputCall.disable])
      ∧ (∀ newText : String, m.updateTextboxText (some newText)
          = Except.ok ((), m, [TextInputCall.update newText]))
      ∧ m.getCursorPosition cursor
          = Except.ok (cursor, m, [TextInputCall.getCursorPosition]))
    ∧ (∀ text v m' calls,
        m.showKeyboard text maxLen ignored ignored2 multiline = Except.ok (v, m', calls) →
        m' = m)
    ∧ (∀ v m' calls, m.hideKeyboard = Except.ok (v, m', calls) → m' = m)
    ∧ (∀ newText v m' calls, m.updateTextboxText newText = Except.ok (v, m', calls) → m' = m)
    ∧ (∀ v m' calls, m.getCursorPosition cursor = Except.ok (v, m', calls) → m' = m) := by
  refine ⟨?_, ?_, ?_, ?_, ?_, ?_⟩
  · intro h
    simp [MainActivity.showKeyboard, MainActivity.hideKeyboard, MainActivity.updateTextboxText,
      MainActivity.getCursorPosition, h]
  · intro h
    simp [MainActivity.showKeyboard, MainActivity.hideKeyboard, MainActivity.updateTextboxText,
      MainActivity.getCursorPosition, h]
  · intro text v m' calls h
    by_cases ht : m.textInput = nullptr <;> cases text <;>
      simp [MainActivity.showKeyboard, ht] at h <;> exact h.1.symm
  · intro v m' calls h
    by_cases ht : m.textInput = nullptr <;>
      simp [MainActivity.hideKeyboard, ht] at h <;> exact h.1.symm
  · intro newText v m' calls h
    by_cases ht : m.textInput = nullptr <;> cases newText <;>
      simp [MainActivity.updateTextboxText, ht] at h <;> exact h.1.symm
  · intro v m' calls h
    by_cases ht : m.textInput = nullptr <;>
      simp [MainActivity.getCursorPosition, ht] at h <;> exact h.2.1.symm

/-- C9, witness: `showKeyboard` on the activity with a collaborator makes the one call
`enable("abc", true)`; `getCursorPosition` on the activity without one returns 0. -/
theorem C9_text_input_bridge_witness :
    sampleActivity.showKeyboard (some "abc") 16 false false true
        = Except.ok ((), sampleActivity, [TextInputCall.enable "abc" true])
    ∧ bareActivity.getCursorPosition 7 = Except.ok (0, bareActivity, []) :=
  ⟨((C9_text_input_bridge sampleActivity 16 7 false false true).2.1 (by decide)).1 "abc",
    ((C9_text_input_bridge bareActivity 16 7 false false true).1 rfl).2.2.2⟩

end McpeLauncher
